import Mathlib

set_option maxRecDepth 16384

/-!
Verification of `create_project.py`, an interactive project-scaffolding
script.  The script is shallowly embedded: every Python function that the
claims touch is translated into an executable Lean definition, Python
strings are Lean `String`s, and all string manipulation is implemented by
structural recursion over `String.data` (`List Char`) so that concrete
runs evaluate inside the kernel.  Interactive input and the external
world (availability of `rustc`, `flutter`, `gh`, …) are passed in
explicitly; file-system side effects are recorded as an operation trace.
-/

/-! ## Python string primitives -/

/-- The whitespace characters stripped by Python `str.strip()` (the ASCII
ones; the script only ever manipulates ASCII text). -/
def pyIsSpace (c : Char) : Bool :=
  c = ' ' || c = '\t' || c = '\n' || c = '\r' || c = '\x0b' || c = '\x0c'

/-- `str.strip()` on a list of characters. -/
def pyStripList (l : List Char) : List Char :=
  ((l.dropWhile pyIsSpace).reverse.dropWhile pyIsSpace).reverse

/-- Python `str.strip()`. -/
def pyStrip (s : String) : String := String.mk (pyStripList s.data)

/-- Python `str.lower()` (ASCII). -/
def pyLower (s : String) : String := String.mk (s.data.map Char.toLower)

/-- Substring containment on character lists (one check per suffix). -/
def listIsInfixOf (pat : List Char) : List Char → Bool
  | [] => pat.isEmpty
  | c :: rest => pat.isPrefixOf (c :: rest) || listIsInfixOf pat rest

/-- Python `sub in s` (substring containment). -/
def pyIn (sub s : String) : Bool := listIsInfixOf sub.data s.data

/-- Accumulator-based worker for Python `str.split()` with no separator:
split on runs of whitespace, producing no empty tokens. -/
def pySplitWsAux : List Char → List Char → List String
  | [], acc => if acc = [] then [] else [String.mk acc.reverse]
  | c :: rest, acc =>
    if pyIsSpace c then
      (if acc = [] then [] else [String.mk acc.reverse]) ++ pySplitWsAux rest []
    else
      pySplitWsAux rest (c :: acc)

/-- Python `str.split()` (no separator argument). -/
def pySplitWs (s : String) : List String := pySplitWsAux s.data []

/-- Worker for Python `str.replace(pat, '')`: scan the text left to right;
on a match skip the matched characters (`skip` counts characters still to
be discarded) and continue after it, exactly like CPython's
non-overlapping left-to-right replacement. -/
def pyRemoveAux (pat : List Char) : List Char → Nat → List Char
  | [], _ => []
  | _ :: rest, skip + 1 => pyRemoveAux pat rest skip
  | c :: rest, 0 =>
    if pat ≠ [] && pat.isPrefixOf (c :: rest) then
      pyRemoveAux pat rest (pat.length - 1)
    else
      c :: pyRemoveAux pat rest 0

/-- Python `s.replace(pat, '')`. -/
def pyRemove (pat s : String) : String := String.mk (pyRemoveAux pat.data s.data 0)

/-- Number of (possibly overlapping) occurrences of a non-empty pattern
in a text, one count per starting position. -/
def countInfix (pat : List Char) : List Char → Nat
  | [] => 0
  | c :: rest => (if pat.isPrefixOf (c :: rest) then 1 else 0) + countInfix pat rest

/-- Lexicographic `≤` on character lists by code point, the order Python
uses to compare strings. -/
def listCharLe : List Char → List Char → Bool
  | [], _ => true
  | x :: xs, y :: ys =>
    if x.toNat < y.toNat then true
    else if y.toNat < x.toNat then false
    else listCharLe xs ys
  | _ :: _, [] => false

/-- Python string `≤` as a proposition (used as the sorting relation). -/
def pyLe (s t : String) : Prop := listCharLe s.data t.data = true

instance : DecidableRel pyLe := fun s t => by unfold pyLe; infer_instance

/-- Python `sorted` on a list of strings. -/
def pySort (l : List String) : List String := List.insertionSort pyLe l

/-- Python `sorted(list(set(l)))`: deduplicate, then sort. -/
def pySortedSet (l : List String) : List String := pySort l.dedup

/-- Validator for the digit part accepted by Python `int()`: decimal
digits with single underscores allowed between digits. -/
def pyIntDigitsTail : List Char → Bool
  | [] => true
  | '_' :: rest =>
    match rest with
    | [] => false
    | d :: rest2 => d.isDigit && pyIntDigitsTail rest2
  | c :: rest => c.isDigit && pyIntDigitsTail rest

/-- Validator for a full digit group of Python `int()`. -/
def pyIntDigits : List Char → Bool
  | [] => false
  | c :: rest => c.isDigit && pyIntDigitsTail rest

/-- Decimal value of a list of digit characters. -/
def digitsToNat (ds : List Char) : Nat := ds.foldl (fun n c => n * 10 + (c.toNat - 48)) 0

/-- Python `int(s)` for decimal string literals: optional surrounding
whitespace, optional single sign, digits with internal underscores.
(Non-ASCII digit forms accepted by CPython are not used by this program
and are not modelled.)  Returns `none` where `int()` raises `ValueError`. -/
def pyInt (s : String) : Option Int :=
  match pyStripList s.data with
  | '+' :: rest =>
    if pyIntDigits rest then some (Int.ofNat (digitsToNat (rest.filter (· ≠ '_')))) else none
  | '-' :: rest =>
    if pyIntDigits rest then some (-(Int.ofNat (digitsToNat (rest.filter (· ≠ '_'))))) else none
  | t => if pyIntDigits t then some (Int.ofNat (digitsToNat (t.filter (· ≠ '_')))) else none

/-! ## `run_command` (the external-process gateway)

`run_command` performs exactly one `subprocess.run` call; the outcome of
that single call is passed in as a `CmdOutcome`.  The model returns the
lines printed to the console together with the Python return value. -/

/-- Result object of a successful `subprocess.run` (the fields the script
ever looks at). -/
structure CmdResult where
  stdout : String
  stderr : String
deriving DecidableEq, Repr

/-- Outcome of the single process invocation made by `run_command`. -/
inductive CmdOutcome
  | success (result : CmdResult)
  | notFound
  | calledProcessError (stdout stderr : String)
deriving DecidableEq, Repr

/-- `run_command(command, cwd, ...)`: returns `(console output, return value)`.
Translated from `create_project.py` lines 105–128. -/
def run_command (command : List String) (outcome : CmdOutcome) :
    List String × Option CmdResult :=
  match outcome with
  | .success result => ([], some result)
  | .notFound =>
    (["  [ERROR] Command not found: " ++ command.headD "" ++
        ". Is it installed and in your PATH?"], none)
  | .calledProcessError out err =>
    (["  [ERROR] Command failed: " ++ String.intercalate " " command] ++
        (if out ≠ "" then ["  STDOUT: " ++ out] else []) ++
        (if err ≠ "" then ["  STDERR: " ++ err] else []),
      none)

/-- A world supplying the outcome of each successive invocation.
`run_command_world` consumes exactly the first outcome and leaves the
rest untouched: the command is never retried. -/
def run_command_world (command : List String) (world : List CmdOutcome) :
    (List String × Option CmdResult) × List CmdOutcome :=
  match world with
  | [] => (([], none), [])
  | o :: rest => (run_command command o, rest)

/-! ## The prompt layer: `select_many`

`select_many` loops over console input lines until one of them parses.
`select_many_parse` is the body of one loop iteration (lines 85–98):
`some r` means "return `r`", `none` means "print a message and ask
again". -/

/-- Worker translating `[int(c.strip()) for c in raw_input.split()]`:
`none` exactly when the comprehension raises `ValueError`. -/
def mapPyInt : List String → Option (List Int)
  | [] => some []
  | t :: ts =>
    match pyInt (pyStrip t) with
    | none => none
    | some v => (mapPyInt ts).map (fun l => v :: l)

/-- One iteration of the `select_many` input loop. -/
def select_many_parse (options : List String) (rawLine : String) : Option (List String) :=
  let line := pyLower rawLine
  if line = "" then some []
  else if line = "all" then some options
  else
    match mapPyInt (pySplitWs line) with
    | none => none
    | some cs =>
      if cs.all (fun c => 1 ≤ c && c ≤ (options.length : Int)) then
        some (cs.map (fun c => options.getD (c - 1).toNat ""))
      else none

/-- `select_many(prompt, options)` fed with a list of console input
lines: returns the selected options together with the number of prompts
consumed, or `none` if every supplied line is rejected (the real loop
would keep re-prompting). -/
def select_many (options : List String) : List String → Option (List String × Nat)
  | [] => none
  | l :: rest =>
    match select_many_parse options l with
    | some r => some (r, 1)
    | none => (select_many options rest).map (fun p => (p.1, p.2 + 1))

/-- One iteration of the `select_one` input loop (lines 65–78). -/
def select_one_parse (options : List String) (rawLine : String) : Option String :=
  match pyInt rawLine with
  | none => none
  | some c =>
    if 1 ≤ c && c ≤ (options.length : Int) then some (options.getD (c - 1).toNat "")
    else none

/-- The language catalogue offered by `get_project_settings`. -/
def all_langs : List String := ["Python", "C++", "Rust", "Dart/Flutter"]

/-- The language list stored in the settings record (lines 390–395):
single-language projects wrap the single choice, multi-language projects
take the `select_many` result verbatim. -/
def settings_languages (projectType : String) (singleChoice : String)
    (multiResult : List String) : List String :=
  if projectType = "Single-Language" then [singleChoice] else multiResult

/-! ## Settings record -/

/-- The settings gathered by `get_project_settings`, together with the
fields of the persisted `config.ini` that the run reads
(`config['USER']['github_username']` and the `config['API_KEYS']`
section, the latter as its `.get` lookup function). -/
structure Settings where
  project_name : String
  languages : List String
  use_docker : Bool
  use_ci : Bool
  use_github : Bool
  ai_tools : List String
  apiKeys : String → Option String
  github_username : String

/-! ## Template catalogue -/

/-- The `common` rules of `get_gitignore_content`. -/
def gitignore_common : String :=
  "# General\n.DS_Store\n*.swp\n*.swo\n.env\n.idea/\nbuild/\ndist/\n\n# Scripter Config\n/.dev_scripter/\n"

/-- `lang_specific_map.get(lang, "")` of `get_gitignore_content`. -/
def lang_specific_map (lang : String) : String :=
  if lang = "Python" then "# Python\n__pycache__/\n*.pyc\n*.pyo\nvenv/\n.pytest_cache/\n"
  else if lang = "C++" then
    "# C++\n*.o\n*.out\n*.exe\n*.dll\n*.so\n*.a\nCMakeLists.txt.user\n**/CMakeCache.txt\n**/CMakeFiles/\n"
  else if lang = "Rust" then "# Rust\n# Ignore all target directories\n**/target/\n"
  else if lang = "Dart/Flutter" then "# Flutter\n.dart_tool/\n.packages\n"
  else ""

/-- `get_gitignore_content(languages)` (lines 172–182). -/
def get_gitignore_content (languages : List String) : String :=
  pyStrip (gitignore_common ++ "\n" ++
    String.intercalate "\n" (languages.map lang_specific_map))

/-- `ext_map.get(lang, [])` of `get_vscode_extensions`. -/
def ext_map (lang : String) : List String :=
  if lang = "Python" then ["ms-python.python", "ms-python.vscode-pylance", "charliermarsh.ruff"]
  else if lang = "C++" then ["ms-vscode.cpptools", "ms-vscode.cmake-tools"]
  else if lang = "Rust" then ["rust-lang.rust-analyzer", "vadimcn.vscode-lldb"]
  else if lang = "Dart/Flutter" then ["Dart-Code.dart-code", "Dart-Code.flutter"]
  else []

/-- The `base` extension list of `get_vscode_extensions` after the
AI-tool conditionals (lines 192–198). -/
def vscode_base (ai_tools : List String) : List String :=
  let b := ["github.vscode-pull-request-github", "ms-vscode.remote-containers"]
  let b := if "Gemini" ∈ ai_tools then b ++ ["Google.gemini"] else b
  let b := if "Cursor" ∈ ai_tools then b ++ ["cursor.cursor-vscode"] else b
  let b := if "Claude" ∈ ai_tools then b ++ ["Anthropic.anthropic-vscode"] else b
  if "GitHub Copilot" ∈ ai_tools then b ++ ["github.copilot", "github.copilot-chat"] else b

/-- `get_vscode_extensions(settings)` (lines 184–204), as the
`recommendations` list that the function serialises into
`.vscode/extensions.json`: the deduplicated, sorted union of the base
extensions and each selected language's extensions. -/
def get_vscode_extensions (s : Settings) : List String :=
  pySortedSet (vscode_base s.ai_tools ++ s.languages.flatMap ext_map)

/-- The multi-language CI workflow body (lines 211–224). -/
def ci_multilang : String :=
  "\nname: Multi-Language CI\non: [push, pull_request]\njobs:\n  build_all:\n    runs-on: ubuntu-latest\n    steps:\n    - uses: actions/checkout@v4\n    - name: Set up build environment (install dependencies if needed)\n      # e.g., sudo apt-get update && sudo apt-get install -y cmake g++ ...\n      run: echo \"Setting up environment...\"\n    - name: Run top-level build script\n      run: chmod +x build.sh && ./build.sh\n"

/-- `workflow_map.get(lang, ...)` of `get_ci_workflow` (lines 227–233). -/
def workflow_map (lang : String) : String :=
  if lang = "Python" then
    "name: Python CI\non: [push, pull_request]\njobs:\n  build:\n    runs-on: ubuntu-latest\n    steps:\n    - uses: actions/checkout@v4\n    - name: Set up Python\n      uses: actions/setup-python@v4\n      with:\n        python-version: '3.11'\n    - name: Install dependencies\n      run: |\n        python -m pip install --upgrade pip\n        pip install -r requirements.txt\n    - name: Test with pytest\n      run: pip install pytest && pytest\n"
  else if lang = "C++" then
    "name: C++ CI with CMake\non: [push, pull_request]\njobs:\n  build:\n    runs-on: ubuntu-latest\n    steps:\n    - uses: actions/checkout@v4\n    - name: Configure CMake\n      run: cmake -B $\x7b\x7bgithub.workspace\x7d\x7d/build -DCMAKE_BUILD_TYPE=Release\n    - name: Build\n      run: cmake --build $\x7b\x7bgithub.workspace\x7d\x7d/build --config Release\n    - name: Test\n      working-directory: $\x7b\x7bgithub.workspace\x7d\x7d/build\n      run: ctest -C Release\n"
  else if lang = "Rust" then
    "name: Rust CI\non: [push, pull_request]\njobs:\n  build:\n    runs-on: ubuntu-latest\n    steps:\n    - uses: actions/checkout@v4\n    - name: Build\n      run: cargo build --verbose\n    - name: Run tests\n      run: cargo test --verbose\n"
  else if lang = "Dart/Flutter" then
    "name: Flutter CI\non: [push, pull_request]\njobs:\n  build:\n    runs-on: ubuntu-latest\n    steps:\n    - uses: actions/checkout@v4\n    - uses: subosito/flutter-action@v2\n      with:\n        channel: 'stable'\n    - name: Install dependencies\n      run: flutter pub get\n    - name: Analyze project\n      run: flutter analyze\n    - name: Run tests\n      run: flutter test\n"
  else "# No CI workflow generated for this language yet."

/-- `get_ci_workflow(settings)` (lines 206–233). -/
def get_ci_workflow (s : Settings) : String :=
  if 1 < s.languages.length then ci_multilang
  else workflow_map (s.languages.headD "")

/-- `get_copilot_config()` (lines 235–237). -/
def get_copilot_config : String :=
  "# Configuration for GitHub Copilot\ngithub:\n  copilot:\n    excluded:\n      - \"**/doc/**\"\n      - \"**/.env\"\n      - \"**/GETTING_STARTED.md\"\n"

/-! ## Top-level build script -/

/-- A language component of a multi-language project:
`{'name': component_name, 'lang': lang}`. -/
structure Component where
  name : String
  lang : String
deriving DecidableEq, Repr

/-- The `build_commands` dictionary shared by
`generate_toplevel_build_script` and `configure_ai_tools`
(`.get`, so `none` for unknown languages). -/
def build_commands (lang : String) : Option String :=
  if lang = "C++" then some "cmake --build ./build"
  else if lang = "Rust" then some "cargo build"
  else if lang = "Dart/Flutter" then some "flutter build"
  else if lang = "Python" then some "echo 'Python component has no build step.'"
  else none

/-- The per-component f-string block appended by
`generate_toplevel_build_script` for a component whose language has a
build command. -/
def build_block (c : Component) (cmd : String) : String :=
  "\necho \"\"\necho \"--- Building " ++ c.lang ++ " component (" ++ c.name ++
    ") ---\"\n(cd " ++ c.name ++ " && " ++ cmd ++ ")\n"

/-- The fixed first lines of `build.sh`. -/
def build_script_header : String :=
  "#!/bin/bash\n# Exit immediately if a command fails.\nset -e\n"

/-- The fixed last lines of `build.sh`. -/
def build_script_footer : String :=
  "\necho \"\"\necho \"All components built successfully!\"\n"

/-- The `build_script_content` string assembled by
`generate_toplevel_build_script` (lines 239–256) before it is passed to
`write_file`. -/
def generate_toplevel_build_script_content (components : List Component) : String :=
  (components.foldl
    (fun acc c =>
      match build_commands c.lang with
      | some cmd => acc ++ build_block c cmd
      | none => acc)
    build_script_header) ++ build_script_footer

/-! ## AI tooling and MCP configuration -/

/-- One server descriptor of the `all_servers` mapping.  Descriptors
without an `env` (resp. `description`) key are modelled with an empty
list (resp. `none`). -/
structure ServerCfg where
  command : String
  args : List String
  env : List (String × String)
  description : Option String
deriving DecidableEq, Repr

/-- The literal `all_servers` dictionary of `configure_ai_tools`
(lines 320–330), in insertion order. -/
def base_all_servers : List (String × ServerCfg) :=
  [("github",
    ⟨"npx", ["-y", "@modelcontextprotocol/server-github"],
      [("GITHUB_PERSONAL_ACCESS_TOKEN", "$\x7benv:GITHUB_PERSONAL_ACCESS_TOKEN\x7d")], none⟩),
   ("sequential-thinking",
    ⟨"npx", ["-y", "@modelcontextprotocol/server-sequential-thinking"], [], none⟩),
   ("notion",
    ⟨"npx", ["-y", "mcp-server-notion"], [("NOTION_API_KEY", "$\x7benv:NOTION_API_KEY\x7d")], none⟩),
   ("Context7", ⟨"npx", ["-y", "@upstash/context7-mcp"], [], none⟩),
   ("taskmaster-ai",
    ⟨"npx", ["-y", "--package=task-master-ai", "task-master-ai"],
      [("GEMINI_API_KEY", "$\x7benv:GEMINI_API_KEY\x7d"),
       ("ANTHROPIC_API_KEY", "$\x7benv:ANTHROPIC_API_KEY\x7d")], none⟩),
   ("build-system", ⟨"./build.sh", [], [], some "MCP for building all project components."⟩),
   ("filesystem",
    ⟨"npx", ["-y", "mcp-server-filesystem", "--root", "."], [],
      some "MCP for sandboxed file system access."⟩),
   ("code-ast",
    ⟨"echo", ["ast-mcp-not-implemented"], [],
      some "MCP for Abstract Syntax Tree code analysis."⟩)]

/-- `all_servers` after the single-language rewrite of the
`build-system` entry (lines 332–337). -/
def all_servers_for (components : List Component) : List (String × ServerCfg) :=
  if components.length ≤ 1 then
    match build_commands (components.headD ⟨"", ""⟩).lang with
    | some cmd =>
      base_all_servers.map
        (fun p => if p.1 = "build-system" then
            (p.1, { p.2 with command := (pySplitWs cmd).headD "",
                             args := (pySplitWs cmd).tail })
          else p)
    | none => base_all_servers
  else base_all_servers

/-- Association-list lookup standing for `all_servers[name]` (the
selection returned by `select_many` only ever contains valid keys; on an
impossible missing key Python would raise `KeyError`). -/
def lookupServer (l : List (String × ServerCfg)) (n : String) : ServerCfg :=
  match l.find? (fun p => p.1 = n) with
  | some p => p.2
  | none => ⟨"", [], [], none⟩

/-- Key list of a Python dict built by comprehension: first occurrence
of each key, in insertion order. -/
def firstDedup : List String → List String
  | [] => []
  | a :: rest => a :: (firstDedup rest).filter (fun b => b ≠ a)

/-- `mcp_config_obj = {name: all_servers[name] for name in enabled_servers}`
(line 349). -/
def mcp_config_obj (allS : List (String × ServerCfg)) (enabled : List String) :
    List (String × ServerCfg) :=
  (firstDedup enabled).map (fun n => (n, lookupServer allS n))

/-- Python `str.startswith`. -/
def pyStartsWith (pre s : String) : Bool := pre.data.isPrefixOf s.data

/-- Python `str.endswith`. -/
def pyEndsWith (suf s : String) : Bool := suf.data.isSuffixOf s.data

/-- The environment-value rewrite performed for Cursor (lines 362–370):
for a `$\x7benv:NAME\x7d` template, look the derived key up in the
persisted `API_KEYS` table; keep a non-placeholder value, otherwise
substitute `YOUR_<NAME>_HERE`.  Other values are left unchanged. -/
def cursor_subst_val (apiKeys : String → Option String) (val : String) : String :=
  if pyStartsWith "$\x7benv:" val && pyEndsWith "\x7d" val then
    let varName := String.mk (((val.data.drop 6).dropLast).takeWhile (fun c => c ≠ ':'))
    let configKey :=
      pyLower (pyRemove "_API_KEY" (pyRemove "_PERSONAL_ACCESS_TOKEN" varName))
    match apiKeys configKey with
    | some r =>
      if r ≠ "" ∧ ¬ pyIn "YOUR_" r then r
      else "YOUR_" ++ varName ++ "_HERE"
    | none => "YOUR_" ++ varName ++ "_HERE"
  else val

/-- `cursor_config_obj` after the substitution loop (lines 359–370);
`json.loads(json.dumps(...))` is a deep copy and is the identity here. -/
def cursor_transform (apiKeys : String → Option String)
    (mcp : List (String × ServerCfg)) : List (String × ServerCfg) :=
  mcp.map (fun p =>
    (p.1, { p.2 with env := p.2.env.map (fun kv => (kv.1, cursor_subst_val apiKeys kv.2)) }))

/-! ## File-system operation trace

Paths are lists of segments relative to the scaffolding working
directory (so the project root is `[project_name]`).  JSON settings
files are recorded with their structured payload — `json.dumps` is
injective on the objects involved, so nothing relevant is lost. -/

/-- Contents written by the run. -/
inductive FileContent
  | text (s : String)
  | extensionsJson (recommendations : List String)
  | geminiSettings (contextFileName : String) (mcpServers : List (String × ServerCfg))
  | cursorMcp (mcpServers : List (String × ServerCfg))
  | claudeSettings (mcpServers : List (String × ServerCfg))
deriving DecidableEq, Repr

/-- One side effect on the file system or an external-process call. -/
inductive Op
  | mkdirOp (path : List String)
  | writeOp (path : List String) (content : FileContent)
  | chmodOp (path : List String)
  | cmdOp (cmd : List String) (cwd : List String)
deriving DecidableEq, Repr

/-- `write_file(path, content)` (lines 166–170): the file receives
`content.strip() + "\n"`. -/
def write_file (path : List String) (content : String) : Op :=
  .writeOp path (.text (pyStrip content ++ "\n"))

/-- `component_path.name`: the last path segment. -/
def pathName (p : List String) : String := p.getLastD ""

/-! ## Per-language scaffolders

Each scaffolder returns its operation trace and the entries it appends
to `SUMMARY_LOG`.  The interactive answers given during a component's
scaffolding, and the availability of external tools, are passed in. -/

/-- The per-component interactive answers consumed by a scaffolder. -/
structure ComponentInputs where
  subdirName : String
  addPytest : Bool
  pyPkgs : List String
  cppQt : Bool
  cppGtest : Bool
  rustCrates : List String
  flutterPkgs : List String

/-- External-world facts: whether the probed tools are available and
what the GitHub CLI reports. -/
structure World where
  rustcOk : Bool
  flutterOk : Bool
  repoExists : Bool
  ghCreateOk : Bool

/-- `scaffold_python` (lines 263–275); `sys.executable` is modelled as
`"python"`. -/
def scaffold_python (component_path : List String) (inp : ComponentInputs) :
    List Op × List String :=
  let testOps :=
    if inp.addPytest then
      [Op.mkdirOp (component_path ++ ["tests"]),
       write_file (component_path ++ ["tests", "test_sample.py"])
         "def test_example():\n    assert True\n"]
    else []
  let reqs := (if inp.addPytest then ["pytest"] else []) ++ inp.pyPkgs
  let reqOps :=
    if reqs = [] then []
    else [write_file (component_path ++ ["requirements.txt"])
            (String.intercalate "\n" (pySort reqs))]
  ([Op.cmdOp ["python", "-m", "venv", "venv"] component_path] ++ testOps ++ reqOps,
   ["* **Component `" ++ pathName component_path ++ "` (Python):** `venv` with `requirements.txt`."])

/-- `src/main.cpp` starter content. -/
def cpp_main_content : String :=
  "#include <iostream>\nint main() \x7b\n    std::cout << \"Hello, C++ World!\" << std::endl;\n    return 0;\n\x7d"

/-- Base `CMakeLists.txt` content (f-string of line 282). -/
def cmake_base (name : String) : String :=
  "cmake_minimum_required(VERSION 3.15)\nproject(" ++ name ++
    " VERSION 1.0)\n\nset(CMAKE_CXX_STANDARD 17)\nset(CMAKE_CXX_STANDARD_REQUIRED True)\n\nadd_executable($\x7bPROJECT_NAME\x7d src/main.cpp)\n"

/-- Qt addition to `CMakeLists.txt` (line 284). -/
def cmake_qt_extra : String :=
  "find_package(Qt6 COMPONENTS Widgets Test REQUIRED)\ntarget_link_libraries($\x7bPROJECT_NAME\x7d PRIVATE Qt6::Widgets)\nenable_testing()\nadd_executable(run_tests tests/test_main.cpp)\ntarget_link_libraries(run_tests PRIVATE Qt6::Test)\nqt_add_test(run_tests run_tests)\n"

/-- Qt test starter file (line 286). -/
def cpp_qt_test_content : String :=
  "#include <QtTest/QtTest>\nclass SampleTest: public QObject \x7b\n    Q_OBJECT\nprivate slots:\n    void testSample() \x7b QVERIFY(true); \x7d\n\x7d;\nQTEST_MAIN(SampleTest)\n#include \"test_main.moc\""

/-- GoogleTest addition to `CMakeLists.txt` (line 288). -/
def cmake_gtest_extra : String :=
  "include(FetchContent)\nFetchContent_Declare(\n  googletest\n  URL https://github.com/google/googletest/archive/refs/tags/v1.14.0.zip\n)\nFetchContent_MakeAvailable(googletest)\n\nenable_testing()\nadd_executable(run_tests tests/test_main.cpp)\ntarget_link_libraries(run_tests PRIVATE gtest_main)\ninclude(GoogleTest)\ngtest_discover_tests(run_tests)\n"

/-- GoogleTest test starter file (line 290). -/
def cpp_gtest_test_content : String :=
  "#include <gtest/gtest.h>\nTEST(SampleTest, AssertionTrue) \x7b\n    ASSERT_TRUE(true);\n\x7d"

/-- `scaffold_cpp` (lines 277–292). -/
def scaffold_cpp (component_path : List String) (inp : ComponentInputs) :
    List Op × List String :=
  let extraAndTests :=
    if inp.cppQt then
      (cmake_qt_extra,
       [Op.mkdirOp (component_path ++ ["tests"]),
        write_file (component_path ++ ["tests", "test_main.cpp"]) cpp_qt_test_content])
    else if inp.cppGtest then
      (cmake_gtest_extra,
       [Op.mkdirOp (component_path ++ ["tests"]),
        write_file (component_path ++ ["tests", "test_main.cpp"]) cpp_gtest_test_content])
    else ("", [])
  ([Op.mkdirOp (component_path ++ ["src"]),
    Op.mkdirOp (component_path ++ ["include"]),
    write_file (component_path ++ ["src", "main.cpp"]) cpp_main_content] ++
      extraAndTests.2 ++
      [write_file (component_path ++ ["CMakeLists.txt"])
        (cmake_base (pathName component_path) ++ extraAndTests.1)],
   ["* **Component `" ++ pathName component_path ++ "` (C++):** CMake project."])

/-- `scaffold_rust` (lines 294–302): aborts silently when the `rustc`
probe fails. -/
def scaffold_rust (component_path : List String) (inp : ComponentInputs) (w : World) :
    List Op × List String :=
  let probe := Op.cmdOp ["rustc", "--version"] ["."]
  if !w.rustcOk then ([probe], [])
  else
    ([probe, Op.cmdOp ["cargo", "init"] component_path] ++
       inp.rustCrates.map (fun crate =>
         Op.cmdOp (["cargo", "add"] ++ pySplitWs crate) component_path),
     ["* **Component `" ++ pathName component_path ++ "` (Rust):** Initialized with `cargo init`."])

/-- `scaffold_flutter` (lines 304–313): aborts silently when the
`flutter` probe fails; `flutter create` runs in the parent directory. -/
def scaffold_flutter (component_path : List String) (inp : ComponentInputs) (w : World) :
    List Op × List String :=
  let probe := Op.cmdOp ["flutter", "--version"] ["."]
  if !w.flutterOk then ([probe], [])
  else
    ([probe, Op.cmdOp ["flutter", "create", pathName component_path] component_path.dropLast] ++
       inp.flutterPkgs.map (fun pkg =>
         Op.cmdOp ["flutter", "pub", "add", pkg] component_path),
     ["* **Component `" ++ pathName component_path ++ "` (Dart/Flutter):** Initialized with `flutter create`."])

/-- The `lang_scaffolders` dispatch (lines 433–436).  The languages in a
settings record always come from `all_langs`; on any other string the
source would raise `KeyError`. -/
def scaffold_dispatch (lang : String) (component_path : List String)
    (inp : ComponentInputs) (w : World) : List Op × List String :=
  if lang = "Python" then scaffold_python component_path inp
  else if lang = "C++" then scaffold_cpp component_path inp
  else if lang = "Rust" then scaffold_rust component_path inp w
  else if lang = "Dart/Flutter" then scaffold_flutter component_path inp w
  else ([], [])

/-- The component-scaffolding loop of `main` (lines 438–449).  `inputs i`
holds the interactive answers for the `i`-th component; the returned
triple is (operation trace, summary entries, `language_components`). -/
def scaffold_loop (proj : List String) (multilang : Bool)
    (inputs : Nat → ComponentInputs) (w : World) :
    List String → Nat → List Op × List String × List Component
  | [], _ => ([], [], [])
  | lang :: rest, i =>
    let inp := inputs i
    let component_name := if multilang then inp.subdirName else pyLower lang
    let component_path := if multilang then proj ++ [component_name] else proj
    let mkOps :=
      if lang ≠ "Dart/Flutter" ∧ multilang then [Op.mkdirOp component_path] else []
    let this := scaffold_dispatch lang component_path inp w
    let restR := scaffold_loop proj multilang inputs w rest (i + 1)
    (mkOps ++ this.1 ++ restR.1, this.2 ++ restR.2.1,
     ⟨component_name, lang⟩ :: restR.2.2)

/-! ## `configure_ai_tools` -/

/-- `configure_ai_tools(project_path, settings, components)`
(lines 317–379), with the MCP-server selection made at the prompt passed
in as `enabled_servers`.  Returns (ops, summary entries, next steps). -/
def configure_ai_tools (proj : List String) (s : Settings)
    (components : List Component) (enabled_servers : List String) :
    List Op × List String × List String :=
  if enabled_servers = [] then ([], [], [])
  else
    let summEnabled :=
      ["* **Enabled MCPs:** `" ++ String.intercalate ", " enabled_servers ++ "`."]
    let nextNpm :=
      ["Some MCP servers require Node.js. Run `npm install` in the project root if you encounter `npx` errors."]
    let taskmaster :=
      if "taskmaster-ai" ∈ enabled_servers then
        (["* **AI Config:** Taskmaster AI configured. Manual initialization required (see next steps)."],
         ["IMPORTANT: To complete Taskmaster AI setup, run the following command in your terminal: `npx -y task-master-ai init`"])
      else ([], [])
    let mcp := mcp_config_obj (all_servers_for components) enabled_servers
    let gem :=
      if "Gemini" ∈ s.ai_tools then
        ([Op.writeOp (proj ++ [".gemini", "settings.json"]) (.geminiSettings "GEMINI.md" mcp),
          write_file (proj ++ ["GEMINI.md"]) ("# Gemini Context for " ++ s.project_name)],
         ["* **AI Config:** Generated `.gemini/settings.json`."])
      else ([], [])
    let cur :=
      if "Cursor" ∈ s.ai_tools then
        ([Op.writeOp (proj ++ [".cursor", "mcp.json"])
            (.cursorMcp (cursor_transform s.apiKeys mcp))],
         ["* **AI Config:** Generated `.cursor/mcp.json`."],
         ["Review `.cursor/mcp.json` and replace any placeholder API keys."])
      else ([], [], [])
    let cla :=
      if "Claude" ∈ s.ai_tools then
        ([Op.writeOp (proj ++ [".claude", "settings.json"]) (.claudeSettings mcp)],
         ["* **AI Config:** Generated `.claude/settings.json`."])
      else ([], [])
    (gem.1 ++ cur.1 ++ cla.1,
     summEnabled ++ taskmaster.1 ++ gem.2 ++ cur.2.1 ++ cla.2,
     nextNpm ++ taskmaster.2 ++ cur.2.2)

/-! ## `main` -/

/-- Result of a run: side-effect trace, final `SUMMARY_LOG`, final
`NEXT_STEPS`. -/
structure RunResult where
  ops : List Op
  summary : List String
  next_steps : List String

/-- The numbered next-steps rendering of lines 501–502. -/
def numberedSteps (steps : List String) : String :=
  String.join ((List.enumFrom 1 steps).map (fun p => toString p.1 ++ ". " ++ p.2 ++ "\n"))

/-- The fixed part of `doc/GETTING_STARTED.md` before the summary
section (line 497), with `datetime.now().strftime('%Y-%m-%d')` passed in
as `today`. -/
def doc_header (project_name today : String) : String :=
  "# Getting Started with " ++ project_name ++
    "\n\nThis project was scaffolded on " ++ today ++
    ".\nHere is a summary of the configuration and your next steps.\n\n## Project Summary\n\n"

/-- The `getting_started` document (lines 497–502): header, then the
sorted summary log, then — when any next steps exist — the numbered,
sorted-deduplicated next-steps list. -/
def getting_started_doc (project_name today : String)
    (summary next_steps : List String) : String :=
  doc_header project_name today ++ String.intercalate "\n" (pySort summary) ++
    (if next_steps ≠ [] then "\n\n## Next Steps\n\n" ++ numberedSteps (pySortedSet next_steps)
     else "")

/-- The first two `SUMMARY_LOG` entries of `main` (lines 423–424). -/
def start_summary (s : Settings) (multilang : Bool) : List String :=
  ["* **Project:** `" ++ s.project_name ++ "`",
   "* **Project Type:** " ++ (if multilang then "Multi-Language" else "Single-Language")]

/-- The project-root creation, `git init` and `.gitignore` write of
`main` (lines 421–427). -/
def start_ops (s : Settings) : List Op :=
  [Op.mkdirOp [s.project_name], Op.cmdOp ["git", "init", "-b", "main"] [s.project_name],
   write_file ([s.project_name] ++ [".gitignore"]) (get_gitignore_content s.languages)]

/-- The top-level build-script step of `main` (lines 453–455). -/
def build_phase (s : Settings) (multilang : Bool) (components : List Component) :
    List Op × List String :=
  if multilang then
    ([write_file ([s.project_name] ++ ["build.sh"])
        (generate_toplevel_build_script_content components),
      Op.chmodOp ([s.project_name] ++ ["build.sh"])],
     ["* **Build System:** Top-level `build.sh` script created."])
  else ([], [])

/-- The editor-configuration step of `main` (lines 457–459):
(ops, summary entries, next steps). -/
def ide_phase (s : Settings) : List Op × List String × List String :=
  ([Op.writeOp ([s.project_name] ++ [".vscode", "extensions.json"])
      (.extensionsJson (get_vscode_extensions s))],
   ["* **IDE:** Generated `.vscode/extensions.json` for all selected languages."],
   ["If using VS Code, open the project and install recommended extensions when prompted."])

/-- The Docker step of `main` (lines 461–463). -/
def docker_phase (s : Settings) : List Op × List String :=
  if s.use_docker then
    ([write_file ([s.project_name] ++ ["Dockerfile"])
        ("# Dockerfile for " ++ s.project_name ++ "\nFROM busybox")],
     ["* **Containerization:** Added a placeholder `Dockerfile`."])
  else ([], [])

/-- The CI step of `main` (lines 465–467). -/
def ci_phase (s : Settings) : List Op × List String :=
  if s.use_ci then
    ([write_file ([s.project_name] ++ [".github", "workflows", "ci.yml"]) (get_ci_workflow s)],
     ["* **CI/CD:** Added basic GitHub Actions workflow."])
  else ([], [])

/-- The GitHub Copilot step of `main` (lines 469–471). -/
def copilot_phase (s : Settings) : List Op × List String :=
  if "GitHub Copilot" ∈ s.ai_tools then
    ([write_file ([s.project_name] ++ [".github", "copilot", "config.yml"]) get_copilot_config],
     ["* **GitHub Copilot:** Added `.github/copilot/config.yml`."])
  else ([], [])

/-- The guarded `configure_ai_tools` call of `main` (lines 473–474). -/
def ai_phase (s : Settings) (components : List Component) (enabled_servers : List String) :
    List Op × List String × List String :=
  if "Gemini" ∈ s.ai_tools ∨ "Cursor" ∈ s.ai_tools ∨ "Claude" ∈ s.ai_tools then
    configure_ai_tools [s.project_name] s components enabled_servers
  else ([], [], [])

/-- The remote-repository step of `main` (lines 476–493). -/
def github_phase (s : Settings) (w : World) : List Op × List String × List String :=
  if s.use_github then
    if s.github_username ≠ "" then
      if w.repoExists then
        ([Op.cmdOp ["gh", "repo", "view", s.github_username ++ "/" ++ s.project_name] [],
          Op.cmdOp ["git", "remote", "remove", "origin"] [s.project_name],
          Op.cmdOp ["git", "remote", "add", "origin",
            "https://github.com/" ++ (s.github_username ++ "/" ++ s.project_name) ++ ".git"]
            [s.project_name]],
         ["* **GitHub:** Using existing repository `" ++
            (s.github_username ++ "/" ++ s.project_name) ++ "`."],
         ["Push the initial commit to GitHub: `git add . && git commit -m 'Initial commit' && git push -u origin main`."])
      else
        ([Op.cmdOp ["gh", "repo", "view", s.github_username ++ "/" ++ s.project_name] [],
          Op.cmdOp ["gh", "repo", "create", s.github_username ++ "/" ++ s.project_name,
            "--private", "-y"] [s.project_name]],
         if w.ghCreateOk then
           ["* **GitHub:** Created new private repository `" ++
              (s.github_username ++ "/" ++ s.project_name) ++ "`."]
         else [],
         ["Push the initial commit to GitHub: `git add . && git commit -m 'Initial commit' && git push -u origin main`."])
    else ([], [], [])
  else ([], [], [])

/-- The documentation step of `main` (lines 495–503). -/
def doc_phase (s : Settings) (today : String) (summary next_steps : List String) : List Op :=
  [Op.mkdirOp ([s.project_name] ++ ["doc"]),
   write_file ([s.project_name] ++ ["doc", "GETTING_STARTED.md"])
     (getting_started_doc s.project_name today summary next_steps)]

/-- `main` from the point where scaffolding begins (lines 413–507): the
existence check on the destination directory, then the whole generation
pipeline.  `preexisting` tells whether `Path(project_name).exists()`;
the function returns the side-effect trace together with the final
accumulated logs. -/
def main_run (s : Settings) (inputs : Nat → ComponentInputs) (w : World)
    (enabled_servers : List String) (today : String) (preexisting : Bool) : RunResult :=
  if preexisting then ⟨[], [], []⟩
  else
    let multilang : Bool := decide (1 < s.languages.length)
    let scaf := scaffold_loop [s.project_name] multilang inputs w s.languages 0
    let build := build_phase s multilang scaf.2.2
    let ide := ide_phase s
    let docker := docker_phase s
    let ci := ci_phase s
    let copilot := copilot_phase s
    let ai := ai_phase s scaf.2.2 enabled_servers
    let github := github_phase s w
    let summary :=
      start_summary s multilang ++ scaf.2.1 ++ build.2 ++ ide.2.1 ++ docker.2 ++ ci.2 ++
        copilot.2 ++ ai.2.1 ++ github.2.1
    let next_steps := ide.2.2 ++ ai.2.2 ++ github.2.2
    ⟨start_ops s ++ scaf.1 ++ build.1 ++ ide.1 ++ docker.1 ++ ci.1 ++ copilot.1 ++ ai.1 ++
       github.1 ++ doc_phase s today summary next_steps,
     summary, next_steps⟩

/-! ## Auxiliary vocabulary used by the statements -/

/-- Concatenation of a list of strings (used to state the shape of the
generated build script). -/
def concatAll : List String → String
  | [] => ""
  | s :: rest => s ++ concatAll rest

/-- Splitting a character list at newline characters (accumulator holds
the current line reversed). -/
def splitNlAux : List Char → List Char → List String
  | [], acc => [String.mk acc.reverse]
  | c :: rest, acc =>
    if c = '\n' then String.mk acc.reverse :: splitNlAux rest []
    else splitNlAux rest (c :: acc)

/-- The non-empty lines of a text (used to state the "union of rules"
property of the ignore file). -/
def nonEmptyLines (s : String) : List String :=
  (splitNlAux s.data []).filter (fun l => l ≠ "")

/-- A cheap discriminator on summary-log entries: the characters at
indices 4 and 10.  Every entry family produced by the script has at
least 11 fixed leading characters, so the key never depends on the
user-chosen parts. -/
def summaryKey (e : String) : Char × Char := (e.data.getD 4 ' ', e.data.getD 10 ' ')

/-- The summary-log entries that the AI-tool phases (the
`GitHub Copilot` branch of `main` and `configure_ai_tools`) can append. -/
def ai_summary_entry (e : String) : Prop :=
  (∃ l, e = "* **Enabled MCPs:** `" ++ l ++ "`.") ∨
  e = "* **AI Config:** Taskmaster AI configured. Manual initialization required (see next steps)." ∨
  e = "* **AI Config:** Generated `.gemini/settings.json`." ∨
  e = "* **AI Config:** Generated `.cursor/mcp.json`." ∨
  e = "* **AI Config:** Generated `.claude/settings.json`." ∨
  e = "* **GitHub Copilot:** Added `.github/copilot/config.yml`."

/-- The placeholder substituted for an unresolved `$\x7benv:NAME\x7d`
template: `YOUR_<NAME>_HERE` (it contains the variable name). -/
def cursor_env_placeholder (name : String) : String := "YOUR_" ++ name ++ "_HERE"

/-- Modelled from the claim's wording (C3): the expected rendered value
for an environment entry `$\x7benv:NAME\x7d`, given the derived API-key
table key `key` — the persisted value when it is present and is not a
placeholder (non-empty, not containing `YOUR_`), the human-editable
placeholder otherwise. -/
def cursor_env_expected (apiKeys : String → Option String) (key name : String) : String :=
  match apiKeys key with
  | some r => if r ≠ "" ∧ ¬ pyIn "YOUR_" r then r else cursor_env_placeholder name
  | none => cursor_env_placeholder name

/-- The path of a file-write operation (`none` for mkdir/chmod/command
operations). -/
def writePathOf : Op → Option (List String)
  | .writeOp p _ => some p
  | _ => none

/-- The basenames of the AI-tool configuration files:
`.gemini/settings.json` and `.claude/settings.json`, `.cursor/mcp.json`,
`.github/copilot/config.yml`, and the Gemini context file `GEMINI.md`. -/
def ai_file_basenames : List String :=
  ["settings.json", "mcp.json", "config.yml", "GEMINI.md"]

/-- The basenames of the files written by the per-language scaffolders. -/
def scaffold_file_basenames : List String :=
  ["test_sample.py", "requirements.txt", "main.cpp", "test_main.cpp", "CMakeLists.txt"]

/-- The `summaryKey` values of the entry families appended outside the
AI-tool phases. -/
def allowed_summary_keys : List (Char × Char) :=
  [('P', 't'), ('C', 'e'), ('B', 'S'), ('I', ' '), ('C', 'n'), ('C', '*'), ('G', ':')]

/-- The `summaryKey` values of the entry families appended by the
AI-tool phases. -/
def ai_summary_keys : List (Char × Char) := [('E', 'd'), ('A', 'f'), ('G', ' ')]

/-! # Theorems -/

/-! ## The string order -/

theorem listCharLe_cons {x y : Char} {xs ys : List Char} :
    listCharLe (x :: xs) (y :: ys) = true ↔
      x.toNat < y.toNat ∨ (x.toNat = y.toNat ∧ listCharLe xs ys = true) := by
  simp only [listCharLe]
  split_ifs with h1 h2
  · simp [h1]
  · constructor
    · intro h; simp at h
    · rintro (h | ⟨h, _⟩) <;> omega
  · have hxy : x.toNat = y.toNat := by omega
    simp [hxy]

theorem listCharLe_refl (l : List Char) : listCharLe l l = true := by
  induction l with
  | nil => rfl
  | cons a as ih => rw [listCharLe_cons]; exact Or.inr ⟨rfl, ih⟩

theorem listCharLe_total : ∀ a b : List Char, listCharLe a b = true ∨ listCharLe b a = true
  | [], _ => Or.inl rfl
  | _ :: _, [] => Or.inr rfl
  | x :: xs, y :: ys => by
    rcases Nat.lt_trichotomy x.toNat y.toNat with h | h | h
    · exact Or.inl (listCharLe_cons.2 (Or.inl h))
    · rcases listCharLe_total xs ys with h' | h'
      · exact Or.inl (listCharLe_cons.2 (Or.inr ⟨h, h'⟩))
      · exact Or.inr (listCharLe_cons.2 (Or.inr ⟨h.symm, h'⟩))
    · exact Or.inr (listCharLe_cons.2 (Or.inl h))

theorem listCharLe_trans : ∀ {a b c : List Char},
    listCharLe a b = true → listCharLe b c = true → listCharLe a c = true
  | [], _, _, _, _ => rfl
  | _ :: _, [], _, h, _ => by simp [listCharLe] at h
  | _ :: _, _ :: _, [], _, h => by simp [listCharLe] at h
  | x :: xs, y :: ys, z :: zs, h1, h2 => by
    rw [listCharLe_cons] at h1 h2 ⊢
    rcases h1 with h1 | ⟨h1, h1'⟩ <;> rcases h2 with h2 | ⟨h2, h2'⟩
    · exact Or.inl (by omega)
    · exact Or.inl (by omega)
    · exact Or.inl (by omega)
    · exact Or.inr ⟨by omega, listCharLe_trans h1' h2'⟩

theorem listCharLe_antisymm : ∀ {a b : List Char},
    listCharLe a b = true → listCharLe b a = true → a = b
  | [], [], _, _ => rfl
  | _ :: _, [], h, _ => by simp [listCharLe] at h
  | [], _ :: _, _, h => by simp [listCharLe] at h
  | x :: xs, y :: ys, h1, h2 => by
    rw [listCharLe_cons] at h1 h2
    rcases h1 with h1 | ⟨h1, h1'⟩ <;> rcases h2 with h2 | ⟨h2, h2'⟩ <;> try omega
    have hxy : x = y := Char.eq_of_val_eq (UInt32.ext h1)
    rw [hxy, listCharLe_antisymm h1' h2']

instance : IsRefl String pyLe := ⟨fun s => listCharLe_refl s.data⟩

instance : IsTotal String pyLe := ⟨fun s t => listCharLe_total s.data t.data⟩

instance : IsTrans String pyLe := ⟨fun _ _ _ h1 h2 => listCharLe_trans h1 h2⟩

instance : IsAntisymm String pyLe :=
  ⟨fun s t h1 h2 => by
    cases s; cases t
    exact congrArg String.mk (listCharLe_antisymm h1 h2)⟩

theorem pySort_perm (l : List String) : (pySort l).Perm l :=
  List.perm_insertionSort pyLe l

theorem pySort_sorted (l : List String) : (pySort l).Sorted pyLe :=
  List.sorted_insertionSort pyLe l

theorem pySort_eq_of_perm {l m : List String} (h : l.Perm m) : pySort l = pySort m :=
  List.eq_of_perm_of_sorted (((pySort_perm l).trans h).trans (pySort_perm m).symm)
    (pySort_sorted l) (pySort_sorted m)

theorem pySortedSet_nodup (l : List String) : (pySortedSet l).Nodup :=
  ((pySort_perm l.dedup).nodup_iff).2 (List.nodup_dedup l)

theorem pySortedSet_eq_of_perm {l m : List String} (h : l.Perm m) :
    pySortedSet l = pySortedSet m :=
  pySort_eq_of_perm h.dedup

/-! ## C5: pre-existing destination directory -/

/-- C5: if the destination project directory already exists when
scaffolding begins, the run aborts immediately: the operation trace is
empty (no file or directory is written, so the pre-existing directory is
untouched) and no log entry is accumulated. -/
theorem preexisting_target_aborts (s : Settings) (inputs : Nat → ComponentInputs)
    (w : World) (enabled_servers : List String) (today : String) :
    main_run s inputs w enabled_servers today true = ⟨[], [], []⟩ := rfl

/-! ## C7: the external-process gateway -/

/-- C7: `run_command` returns the captured result and prints nothing on
success; on command-not-found it prints a diagnostic and returns the
sentinel `None`; on non-zero exit it prints the failure line and the
captured stdout/stderr (when non-empty) and returns the same sentinel;
and fed with a world of outcomes it consumes exactly the first one — the
command is never retried. -/
theorem run_command_spec (command : List String) :
    (∀ r, run_command command (.success r) = ([], some r)) ∧
    (run_command command .notFound =
      (["  [ERROR] Command not found: " ++ command.headD "" ++
          ". Is it installed and in your PATH?"], none)) ∧
    (∀ out err,
      (run_command command (.calledProcessError out err)).2 = none ∧
      ("  [ERROR] Command failed: " ++ String.intercalate " " command) ∈
        (run_command command (.calledProcessError out err)).1 ∧
      (out ≠ "" → ("  STDOUT: " ++ out) ∈ (run_command command (.calledProcessError out err)).1) ∧
      (err ≠ "" → ("  STDERR: " ++ err) ∈ (run_command command (.calledProcessError out err)).1)) ∧
    (∀ o rest, run_command_world command (o :: rest) = (run_command command o, rest)) := by
  refine ⟨fun r => rfl, rfl, fun out err => ?_, fun o rest => rfl⟩
  refine ⟨rfl, by simp [run_command], fun h => ?_, fun h => ?_⟩
  · simp [run_command, h]
  · simp [run_command, h]

/-- Witness for C7: concrete evaluation of the non-zero-exit case. -/
theorem run_command_spec_witness :
    ("  STDOUT: boom") ∈ (run_command ["make"] (.calledProcessError "boom" "")).1 :=
  ((run_command_spec ["make"]).2.2.1 "boom" "").2.2.1 (by decide)

/-! ## C9 / C10: the multi-choice prompt -/

theorem mapPyInt_none_of_bad {ts : List String} {tok : String}
    (h : tok ∈ ts) (hbad : pyInt (pyStrip tok) = none) : mapPyInt ts = none := by
  induction ts with
  | nil => cases h
  | cons t ts ih =>
    rcases List.mem_cons.1 h with rfl | h'
    · simp [mapPyInt, hbad]
    · unfold mapPyInt
      cases hp : pyInt (pyStrip t) with
      | none => rfl
      | some v => simp [ih h']

theorem mapPyInt_mem_of_mem : ∀ {ts : List String} {cs : List Int} {tok : String} {v : Int},
    mapPyInt ts = some cs → tok ∈ ts → pyInt (pyStrip tok) = some v → v ∈ cs := by
  intro ts
  induction ts with
  | nil => intro cs tok v _ h; cases h
  | cons t ts ih =>
    intro cs tok v hm htok hv
    unfold mapPyInt at hm
    cases hp : pyInt (pyStrip t) with
    | none => rw [hp] at hm; cases hm
    | some w =>
      rw [hp] at hm
      cases hrest : mapPyInt ts with
      | none => rw [hrest] at hm; cases hm
      | some cs' =>
        rw [hrest] at hm
        simp at hm
        rcases List.mem_cons.1 htok with rfl | htok'
        · rw [hp] at hv
          injection hv with hv
          rw [← hm, ← hv]; exact List.mem_cons_self _ _
        · rw [← hm]; exact List.mem_cons_of_mem _ (ih hrest htok' hv)

/-- C9: behaviour of the `select_many` prompt.  (i) any line containing
an invalid token — one `int()` rejects, or one whose value is out of
range — is rejected; (ii) a rejected line only causes a re-prompt;
(iii) the loop returns exactly at the first accepted line; (iv) the
`'all'` shortcut returns the full option list; (v) a line of valid
indices returns the options at those indices. -/
theorem select_many_spec (options : List String) :
    (∀ line tok, tok ∈ pySplitWs (pyLower line) →
      (pyInt (pyStrip tok) = none ∨
        (∃ v, pyInt (pyStrip tok) = some v ∧ ¬(1 ≤ v ∧ v ≤ (options.length : Int)))) →
      pyLower line ≠ "all" →
      select_many_parse options line = none) ∧
    (∀ line rest, select_many_parse options line = none →
      select_many options (line :: rest) =
        (select_many options rest).map (fun p => (p.1, p.2 + 1))) ∧
    (∀ lines r n, select_many options lines = some (r, n) →
      1 ≤ n ∧
      (∃ line, lines[n - 1]? = some line ∧ select_many_parse options line = some r) ∧
      (∀ i, i < n - 1 → ∀ line, lines[i]? = some line →
        select_many_parse options line = none)) ∧
    (∀ line, pyLower line = "all" → select_many_parse options line = some options) ∧
    (∀ line cs, pyLower line ≠ "" → pyLower line ≠ "all" →
      mapPyInt (pySplitWs (pyLower line)) = some cs →
      (∀ v ∈ cs, 1 ≤ v ∧ v ≤ (options.length : Int)) →
      select_many_parse options line =
        some (cs.map (fun c => options.getD (c - 1).toNat ""))) := by
  refine ⟨?_, ?_, ?_, ?_, ?_⟩
  · intro line tok htok hbad hall
    have hne : pyLower line ≠ "" := by
      intro h0
      rw [h0] at htok
      simp [pySplitWs, pySplitWsAux] at htok
    rcases hbad with hbad | ⟨v, hv, hrange⟩
    · simp [select_many_parse, hne, hall, mapPyInt_none_of_bad htok hbad]
    · cases hm : mapPyInt (pySplitWs (pyLower line)) with
      | none => simp [select_many_parse, hne, hall, hm]
      | some cs =>
        have hvmem := mapPyInt_mem_of_mem hm htok hv
        have hfalse :
            (cs.all fun c => decide (1 ≤ c) && decide (c ≤ (options.length : Int))) = false := by
          rw [List.all_eq_false]
          exact ⟨v, hvmem, by simpa using hrange⟩
        simp [select_many_parse, hne, hall, hm, hfalse]
  · intro line rest h
    simp only [select_many, h]
  · intro lines
    induction lines with
    | nil => intro r n h; cases h
    | cons l rest ih =>
      intro r n h
      unfold select_many at h
      cases hp : select_many_parse options l with
      | some r' =>
        rw [hp] at h
        simp at h
        obtain ⟨h1, h2⟩ := h
        refine ⟨by omega, ⟨l, by simp [← h2], by rw [hp, h1]⟩,
          fun i hi => absurd hi (by omega)⟩
      | none =>
        rw [hp] at h
        cases hrest : select_many options rest with
        | none => rw [hrest] at h; cases h
        | some p =>
          rw [hrest] at h
          simp at h
          obtain ⟨hr, hn⟩ := h
          obtain ⟨hn1, ⟨line', hline', hparse'⟩, hbefore⟩ := ih p.1 p.2 (by rw [hrest])
          refine ⟨by omega, ⟨line', ?_, by rw [hparse', hr]⟩, ?_⟩
          · have hidx : n - 1 = (p.2 - 1) + 1 := by omega
            rw [hidx]
            simpa using hline'
          · intro i hi line'' hget
            cases i with
            | zero =>
              simp only [List.getElem?_cons_zero] at hget
              injection hget with hget
              rw [← hget]
              exact hp
            | succ j =>
              simp only [List.getElem?_cons_succ] at hget
              exact hbefore j (by omega) line'' hget
  · intro line hall
    simp [select_many_parse, hall]
  · intro line cs hne hall hm hrange
    have htrue :
        (cs.all fun c => decide (1 ≤ c) && decide (c ≤ (options.length : Int))) = true :=
      List.all_eq_true.2 fun v hv => by
        have := hrange v hv
        simp [this.1, this.2]
    simp [select_many_parse, hne, hall, hm, htrue]

/-- Witness for C9: on the language list, the out-of-range line `"9"` is
rejected, a rejected line re-prompts, `"all"` returns everything, and
`"2 1"` returns the options at the given indices. -/
theorem select_many_spec_witness :
    select_many_parse all_langs "9" = none ∧
    select_many all_langs ["9", "all"] = some (all_langs, 2) ∧
    select_many_parse all_langs "all" = some all_langs ∧
    select_many_parse all_langs "2 1" = some ["C++", "Python"] := by
  have h9 : select_many_parse all_langs "9" = none :=
    (select_many_spec all_langs).1 "9" "9" (by decide)
      (Or.inr ⟨9, by decide, by decide⟩) (by decide)
  have hall : select_many_parse all_langs "all" = some all_langs :=
    (select_many_spec all_langs).2.2.2.1 "all" (by decide)
  have h21 : select_many_parse all_langs "2 1" = some ["C++", "Python"] :=
    ((select_many_spec all_langs).2.2.2.2 "2 1" [2, 1] (by decide) (by decide)
      (by decide) (by decide)).trans (by decide)
  refine ⟨h9, ?_, hall, h21⟩
  rw [(select_many_spec all_langs).2.1 "9" ["all"] h9]
  unfold select_many
  rw [hall]
  rfl

/-- C10: `select_many` accepts repeated indices, so the language
selection recorded in the settings and used for scaffolding can contain
the same language twice; and an empty input line is accepted at once,
yielding the empty selection. -/
theorem select_many_duplicates_and_empty :
    select_many all_langs ["1 1"] = some (["Python", "Python"], 1) ∧
    settings_languages "Multi-Language" "Python" ["Python", "Python"] =
      ["Python", "Python"] ∧
    ¬ (["Python", "Python"] : List String).Nodup ∧
    select_many all_langs [""] = some ([], 1) := by
  exact ⟨by decide, by decide, by decide, by decide⟩

/-! ## C4: editor recommendations are order-invariant -/

theorem perm_flatMap {α β : Type} (f : α → List β) {l₁ l₂ : List α} (h : l₁.Perm l₂) :
    (l₁.flatMap f).Perm (l₂.flatMap f) := by
  induction h with
  | nil => exact .refl _
  | cons x h ih => simpa [List.flatMap_cons] using List.Perm.append_left (f x) ih
  | swap x y l =>
    simp only [List.flatMap_cons, ← List.append_assoc]
    exact List.Perm.append_right _ List.perm_append_comm
  | trans h1 h2 ih1 ih2 => exact ih1.trans ih2

/-- C4: the rendered VS Code recommendation list is invariant under
permutation of the selected languages, duplicate-free, and sorted. -/
theorem vscode_extensions_perm_invariant (s : Settings) (l₂ : List String)
    (h : s.languages.Perm l₂) :
    get_vscode_extensions { s with languages := l₂ } = get_vscode_extensions s ∧
    (get_vscode_extensions s).Nodup ∧
    (get_vscode_extensions s).Sorted pyLe := by
  refine ⟨?_, pySortedSet_nodup _, pySort_sorted _⟩
  unfold get_vscode_extensions
  exact pySortedSet_eq_of_perm (List.Perm.append_left _ (perm_flatMap ext_map h.symm))

/-- Witness for C4: swapping `["Python", "Rust"]` leaves the
recommendation list unchanged. -/
theorem vscode_extensions_perm_invariant_witness :
    get_vscode_extensions
        ⟨"p", ["Rust", "Python"], false, false, false, [], fun _ => none, ""⟩ =
      get_vscode_extensions
        ⟨"p", ["Python", "Rust"], false, false, false, [], fun _ => none, ""⟩ :=
  (vscode_extensions_perm_invariant
    ⟨"p", ["Python", "Rust"], false, false, false, [], fun _ => none, ""⟩
    ["Rust", "Python"] (by decide)).1

/-! ## C1: rendering of the summary log

Line 498 renders `"\n".join(sorted(SUMMARY_LOG))` — sorted, but not
deduplicated (only `NEXT_STEPS` passes through `set()` on line 501).  A
run that scaffolds two Dart/Flutter components under the same
subdirectory name appends the same summary entry twice (`mkdir` is
skipped for Flutter, and a failing `flutter create` is ignored), and the
duplicate survives into the document. -/

/-- A concrete run for C1: a multi-language project with two Dart/Flutter
components that share the subdirectory name `app`. -/
def c1Settings : Settings :=
  ⟨"proj", ["Dart/Flutter", "Dart/Flutter"], false, false, false, [], fun _ => none, ""⟩

/-- Interactive answers for the C1 run. -/
def c1Inputs : Nat → ComponentInputs := fun _ => ⟨"app", false, [], false, false, [], []⟩

/-- External world for the C1 run: `flutter` is available. -/
def c1World : World := ⟨true, true, false, false⟩

/-- Counterexample to C1 as stated: in this run the rendered summary
section (the sorted summary log) differs from the sorted, duplicate-free
version of the accumulated summary-log entries — the duplicated
component entry is rendered twice. -/
theorem summary_dedup_counterexample :
    String.intercalate "\n"
        (pySort (main_run c1Settings c1Inputs c1World [] "2026-01-01" false).summary) ≠
      String.intercalate "\n"
        (pySortedSet (main_run c1Settings c1Inputs c1World [] "2026-01-01" false).summary) := by
  decide

/-- C1 (amended): in every run the final document written to
`doc/GETTING_STARTED.md` renders the summary section as the *sorted*
summary log with duplicates retained (a permutation of the accumulated
entries), while only the next-steps list is rendered deduplicated and
sorted. -/
theorem getting_started_rendering (s : Settings) (inputs : Nat → ComponentInputs)
    (w : World) (es : List String) (today : String) :
    Op.writeOp [s.project_name, "doc", "GETTING_STARTED.md"]
        (.text (pyStrip (getting_started_doc s.project_name today
            (main_run s inputs w es today false).summary
            (main_run s inputs w es today false).next_steps) ++ "\n")) ∈
        (main_run s inputs w es today false).ops ∧
    getting_started_doc s.project_name today
        (main_run s inputs w es today false).summary
        (main_run s inputs w es today false).next_steps =
      doc_header s.project_name today ++
        String.intercalate "\n" (pySort (main_run s inputs w es today false).summary) ++
        (if (main_run s inputs w es today false).next_steps ≠ [] then
          "\n\n## Next Steps\n\n" ++
            numberedSteps (pySortedSet (main_run s inputs w es today false).next_steps)
         else "") ∧
    (pySort (main_run s inputs w es today false).summary).Perm
      (main_run s inputs w es today false).summary ∧
    (pySortedSet (main_run s inputs w es today false).next_steps).Nodup ∧
    (pySortedSet (main_run s inputs w es today false).next_steps).Sorted pyLe := by
  refine ⟨?_, rfl, pySort_perm _, pySortedSet_nodup _, pySort_sorted _⟩
  simp [main_run, write_file, doc_phase]

/-! ## C2: the top-level build script -/

theorem listIsInfixOf_append_right {pat l : List Char} (m : List Char)
    (h : listIsInfixOf pat l = true) : listIsInfixOf pat (l ++ m) = true := by
  induction l with
  | nil =>
    simp only [listIsInfixOf, List.isEmpty_iff] at h
    subst h
    cases m with
    | nil => rfl
    | cons c cs => simp [listIsInfixOf, List.isPrefixOf_iff_prefix, List.nil_prefix]
  | cons c cs ih =>
    simp only [listIsInfixOf, Bool.or_eq_true] at h ⊢
    rcases h with h | h
    · exact Or.inl (List.isPrefixOf_iff_prefix.2
        ((List.isPrefixOf_iff_prefix.1 h).trans (List.prefix_append _ m)))
    · exact Or.inr (ih h)

theorem pyIn_append_right (sub a b : String) (h : pyIn sub a = true) :
    pyIn sub (a ++ b) = true := by
  unfold pyIn at h ⊢
  rw [String.data_append]
  exact listIsInfixOf_append_right _ h

/-- Every language offered by the prompt has a build command. -/
theorem build_commands_of_all_langs {l : String} (h : l ∈ all_langs) :
    build_commands l = some ((build_commands l).getD "") := by
  fin_cases h <;> rfl

/-- The accumulating loop of `generate_toplevel_build_script`: when every
component's language has a build command, the result is the initial
value followed by one block per component, in order. -/
theorem build_script_foldl (comps : List Component)
    (h : ∀ c ∈ comps, c.lang ∈ all_langs) :
    ∀ init : String,
      comps.foldl
        (fun acc c =>
          match build_commands c.lang with
          | some cmd => acc ++ build_block c cmd
          | none => acc)
        init =
      init ++ concatAll (comps.map fun c => build_block c ((build_commands c.lang).getD "")) := by
  induction comps with
  | nil => intro init; simp [concatAll]
  | cons c cs ih =>
    intro init
    have hc := build_commands_of_all_langs (h c (List.mem_cons_self c cs))
    rw [List.foldl_cons, List.map_cons]
    rw [show (match build_commands c.lang with
        | some cmd => init ++ build_block c cmd
        | none => init) = init ++ build_block c ((build_commands c.lang).getD "") from by
      rw [hc]; rfl]
    rw [ih (fun x hx => h x (List.mem_cons_of_mem c hx))]
    rw [concatAll, String.append_assoc]

/-- The scaffolding loop records one component per selected language, in
selection order. -/
theorem scaffold_loop_components_lang (proj : List String) (ml : Bool)
    (inputs : Nat → ComponentInputs) (w : World) :
    ∀ (langs : List String) (i : Nat),
      ((scaffold_loop proj ml inputs w langs i).2.2).map Component.lang = langs := by
  intro langs
  induction langs with
  | nil => intro i; rfl
  | cons lang rest ih => intro i; simp only [scaffold_loop, List.map_cons, ih]

/-- C2: for every selection of at least two (supported) languages, the
run writes a top-level `build.sh` whose components are exactly the
selected languages in selection order; its body is the `set -e` header,
then exactly one build-invocation block per component in that order,
then the footer; and the `set -e` fail-fast directive occurs in the
script. -/
theorem toplevel_build_script_spec (s : Settings) (inputs : Nat → ComponentInputs)
    (w : World) (es : List String) (today : String)
    (hlang : ∀ l ∈ s.languages, l ∈ all_langs) (h2 : 2 ≤ s.languages.length) :
    write_file [s.project_name, "build.sh"]
        (generate_toplevel_build_script_content
          ((scaffold_loop [s.project_name] true inputs w s.languages 0).2.2)) ∈
        (main_run s inputs w es today false).ops ∧
    (((scaffold_loop [s.project_name] true inputs w s.languages 0).2.2).map
        Component.lang) = s.languages ∧
    (∀ comps : List Component, (∀ c ∈ comps, c.lang ∈ all_langs) →
      generate_toplevel_build_script_content comps =
        build_script_header ++
          concatAll (comps.map fun c => build_block c ((build_commands c.lang).getD "")) ++
          build_script_footer) ∧
    pyIn "set -e"
        (generate_toplevel_build_script_content
          ((scaffold_loop [s.project_name] true inputs w s.languages 0).2.2)) = true := by
  have hml : decide (1 < s.languages.length) = true := by simp; omega
  have hshape : ∀ comps : List Component, (∀ c ∈ comps, c.lang ∈ all_langs) →
      generate_toplevel_build_script_content comps =
        build_script_header ++
          concatAll (comps.map fun c => build_block c ((build_commands c.lang).getD "")) ++
          build_script_footer := by
    intro comps h
    unfold generate_toplevel_build_script_content
    rw [build_script_foldl comps h build_script_header]
  have hcomps : (((scaffold_loop [s.project_name] true inputs w s.languages 0).2.2).map
      Component.lang) = s.languages :=
    scaffold_loop_components_lang [s.project_name] true inputs w s.languages 0
  refine ⟨?_, hcomps, hshape, ?_⟩
  · simp only [main_run, hml, Bool.false_eq_true, ↓reduceIte]
    simp [List.mem_append, build_phase]
  · have hin : pyIn "set -e" build_script_header = true := by decide
    have hcl : ∀ c ∈ (scaffold_loop [s.project_name] true inputs w s.languages 0).2.2,
        c.lang ∈ all_langs := by
      intro c hc
      exact hlang c.lang (hcomps ▸ List.mem_map_of_mem Component.lang hc)
    rw [hshape _ hcl, String.append_assoc]
    exact pyIn_append_right _ _ _ hin

/-- Witness for C2: concrete two-language run. -/
theorem toplevel_build_script_spec_witness :
    pyIn "set -e"
        (generate_toplevel_build_script_content
          ((scaffold_loop ["p"] true (fun _ => ⟨"sub", false, [], false, false, [], []⟩)
              ⟨true, true, false, false⟩ ["Python", "Rust"] 0).2.2)) = true :=
  (toplevel_build_script_spec
    ⟨"p", ["Python", "Rust"], false, false, false, [], fun _ => none, ""⟩
    (fun _ => ⟨"sub", false, [], false, false, [], []⟩)
    ⟨true, true, false, false⟩ [] "2026-01-01" (by decide) (by decide)).2.2.2

/-! ## C8: ignore-file contents

Line 181 joins `lang_specific_map.get(lang, "")` over the *list* of
selected languages, so a language selected twice (possible through
`select_many`, see C10) contributes its block twice; "exactly once"
holds only for duplicate-free selections. -/

/-- Counterexample to C8 as stated: for the selection
`["Python", "Python"]` (reachable via the multi-choice prompt) the
Python rules occur twice in the generated body, both as a substring
count (of the whitespace-stripped block — the final `strip()` trims the
very last newline) and as a count of the joined blocks. -/
theorem gitignore_duplicate_counterexample :
    countInfix (pyStrip (lang_specific_map "Python")).data
        (get_gitignore_content ["Python", "Python"]).data = 2 ∧
    (List.map lang_specific_map ["Python", "Python"]).count (lang_specific_map "Python") = 2 := by
  exact ⟨by decide, by decide⟩

theorem count_map_eq_one {f : String → String} {sup : List String}
    (hinj : ∀ x ∈ sup, ∀ y ∈ sup, f x = f y → x = y) :
    ∀ {langs : List String}, (∀ x ∈ langs, x ∈ sup) → langs.Nodup →
      ∀ {l : String}, l ∈ langs → (langs.map f).count (f l) = 1 := by
  intro langs
  induction langs with
  | nil => intro _ _ l hl; cases hl
  | cons a rest ih =>
    intro hsub hnd l hl
    rcases List.mem_cons.1 hl with heq | hl'
    · rw [heq, List.map_cons, List.count_cons_self]
      have hzero : (rest.map f).count (f a) = 0 := by
        rw [List.count_eq_zero]
        intro hmem
        obtain ⟨b, hb, hfb⟩ := List.mem_map.1 hmem
        have hba : b = a :=
          hinj b (hsub b (List.mem_cons_of_mem _ hb)) a (hsub a (List.mem_cons_self _ _)) hfb
        exact (List.nodup_cons.1 hnd).1 (hba ▸ hb)
      rw [hzero]
    · have hla : l ≠ a := by
        rintro rfl
        exact (List.nodup_cons.1 hnd).1 hl'
      have hne : f l ≠ f a := fun he =>
        hla (hinj l (hsub l (List.mem_cons_of_mem _ hl')) a (hsub a (List.mem_cons_self _ _)) he)
      rw [List.map_cons, List.count_cons_of_ne hne]
      exact ih (fun x hx => hsub x (List.mem_cons_of_mem _ hx)) (List.nodup_cons.1 hnd).2 hl'

/-- C8 (amended): for every supported language `L`, the single-language
ignore body is the common rules joined with `L`'s rules (its non-empty
lines are exactly the common lines followed by `L`'s lines); and for
every *duplicate-free* selection of supported languages the body is the
common rules followed by the joined per-language blocks, each selected
language's block occurring exactly once. -/
theorem gitignore_content_spec :
    (∀ l ∈ all_langs,
      get_gitignore_content [l] = pyStrip (gitignore_common ++ "\n" ++ lang_specific_map l) ∧
      nonEmptyLines (get_gitignore_content [l]) =
        nonEmptyLines gitignore_common ++ nonEmptyLines (lang_specific_map l)) ∧
    (∀ langs : List String, (∀ l ∈ langs, l ∈ all_langs) → langs.Nodup →
      get_gitignore_content langs =
        pyStrip (gitignore_common ++ "\n" ++
          String.intercalate "\n" (langs.map lang_specific_map)) ∧
      ∀ l ∈ langs, (langs.map lang_specific_map).count (lang_specific_map l) = 1) := by
  constructor
  · intro l hl
    fin_cases hl <;> exact ⟨by decide, by decide⟩
  · intro langs hsub hnd
    refine ⟨rfl, fun l hl => ?_⟩
    have hinj : ∀ x ∈ all_langs, ∀ y ∈ all_langs,
        lang_specific_map x = lang_specific_map y → x = y := by decide
    exact count_map_eq_one hinj hsub hnd hl

/-- Witness for C8. -/
theorem gitignore_content_spec_witness :
    nonEmptyLines (get_gitignore_content ["C++"]) =
      nonEmptyLines gitignore_common ++ nonEmptyLines (lang_specific_map "C++") ∧
    (List.map lang_specific_map ["Python", "Rust"]).count (lang_specific_map "Rust") = 1 :=
  ⟨(gitignore_content_spec.1 "C++" (by decide)).2,
   (gitignore_content_spec.2 ["Python", "Rust"] (by decide) (by decide)).2 "Rust" (by decide)⟩

/-! ## C3: Cursor environment-placeholder substitution -/

/-- The single-language rewrite of `all_servers` only touches the
`build-system` command and arguments, never an `env` table. -/
theorem all_servers_for_env (comps : List Component) :
    ∀ sname cfg, (sname, cfg) ∈ all_servers_for comps →
      ∃ cfg₀, (sname, cfg₀) ∈ base_all_servers ∧ cfg.env = cfg₀.env := by
  intro sname cfg hmem
  unfold all_servers_for at hmem
  by_cases hlen : comps.length ≤ 1
  · rw [if_pos hlen] at hmem
    cases hbc : build_commands (comps.headD ⟨"", ""⟩).lang with
    | none => rw [hbc] at hmem; exact ⟨cfg, hmem, rfl⟩
    | some cmd =>
      rw [hbc] at hmem
      simp only [List.mem_map] at hmem
      obtain ⟨p, hp, hfp⟩ := hmem
      by_cases hb : p.1 = "build-system"
      · rw [if_pos hb] at hfp
        injection hfp with h1 h2
        refine ⟨p.2, ?_, by rw [← h2]⟩
        rw [← h1]
        simpa using hp
      · rw [if_neg hb] at hfp
        subst hfp
        exact ⟨cfg, hp, rfl⟩
  · rw [if_neg hlen] at hmem
    exact ⟨cfg, hmem, rfl⟩

/-- The environment entries of the base server catalogue, each with its
template variable name and derived API-key table key. -/
theorem base_servers_env_entries (apiKeys : String → Option String) :
    ∀ sname cfg, (sname, cfg) ∈ base_all_servers →
    ∀ k v, (k, v) ∈ cfg.env →
    ∃ name key,
      v = "$\x7benv:" ++ name ++ "\x7d" ∧
      key = pyLower (pyRemove "_API_KEY" (pyRemove "_PERSONAL_ACCESS_TOKEN" name)) ∧
      cursor_subst_val apiKeys v = cursor_env_expected apiKeys key name ∧
      pyIn name (cursor_env_placeholder name) = true := by
  intro sname cfg hmem k v hv
  simp only [base_all_servers, List.mem_cons, List.not_mem_nil, or_false,
    Prod.mk.injEq] at hmem
  rcases hmem with hm | hm | hm | hm | hm | hm | hm | hm <;>
    obtain ⟨rfl, rfl⟩ := hm <;>
    simp only [List.mem_cons, List.not_mem_nil, or_false, Prod.mk.injEq] at hv
  · obtain ⟨rfl, rfl⟩ := hv
    exact ⟨"GITHUB_PERSONAL_ACCESS_TOKEN", "github", by decide, by decide, rfl, by decide⟩
  · obtain ⟨rfl, rfl⟩ := hv
    exact ⟨"NOTION_API_KEY", "notion", by decide, by decide, rfl, by decide⟩
  · rcases hv with ⟨rfl, rfl⟩ | ⟨rfl, rfl⟩
    · exact ⟨"GEMINI_API_KEY", "gemini", by decide, by decide, rfl, by decide⟩
    · exact ⟨"ANTHROPIC_API_KEY", "anthropic", by decide, by decide, rfl, by decide⟩

/-- C3: when rendering the Cursor configuration, every server
environment entry is a `$\x7benv:NAME\x7d` template, and its rendered
value is the persisted API-key value for the derived key (NAME with the
`_PERSONAL_ACCESS_TOKEN` / `_API_KEY` suffix stripped, lowercased) when
that value exists and is not a placeholder, and otherwise the
human-editable `YOUR_<NAME>_HERE` string, which contains the variable
name; the rendered object maps each server's entries pointwise through
this substitution. -/
theorem cursor_env_substitution (apiKeys : String → Option String) (comps : List Component) :
    (∀ sname cfg, (sname, cfg) ∈ all_servers_for comps →
      ∀ k v, (k, v) ∈ cfg.env →
      ∃ name key,
        v = "$\x7benv:" ++ name ++ "\x7d" ∧
        key = pyLower (pyRemove "_API_KEY" (pyRemove "_PERSONAL_ACCESS_TOKEN" name)) ∧
        cursor_subst_val apiKeys v = cursor_env_expected apiKeys key name ∧
        pyIn name (cursor_env_placeholder name) = true) ∧
    (∀ mcp : List (String × ServerCfg), ∀ p ∈ mcp,
      (p.1, { p.2 with
        env := p.2.env.map (fun kv => (kv.1, cursor_subst_val apiKeys kv.2)) }) ∈
        cursor_transform apiKeys mcp) := by
  constructor
  · intro sname cfg hmem k v hv
    obtain ⟨cfg₀, hmem₀, henv⟩ := all_servers_for_env comps sname cfg hmem
    exact base_servers_env_entries apiKeys sname cfg₀ hmem₀ k v (henv ▸ hv)
  · intro mcp p hp
    exact List.mem_map_of_mem _ hp

/-- Witness for C3: the `GEMINI_API_KEY` entry of `taskmaster-ai`, once
with a real key configured and once with only placeholders. -/
theorem cursor_env_substitution_witness :
    (∃ name key,
      ("$\x7benv:GEMINI_API_KEY\x7d" : String) = "$\x7benv:" ++ name ++ "\x7d" ∧
      key = pyLower (pyRemove "_API_KEY" (pyRemove "_PERSONAL_ACCESS_TOKEN" name)) ∧
      cursor_subst_val (fun k => if k = "gemini" then some "g-123" else none)
          "$\x7benv:GEMINI_API_KEY\x7d" =
        cursor_env_expected (fun k => if k = "gemini" then some "g-123" else none) key name ∧
      pyIn name (cursor_env_placeholder name) = true) ∧
    cursor_subst_val (fun k => if k = "gemini" then some "g-123" else none)
        "$\x7benv:GEMINI_API_KEY\x7d" = "g-123" ∧
    cursor_subst_val (fun k => if k = "gemini" then some "YOUR_GEMINI_API_KEY_HERE" else none)
        "$\x7benv:GEMINI_API_KEY\x7d" = "YOUR_GEMINI_API_KEY_HERE" :=
  ⟨(cursor_env_substitution (fun k => if k = "gemini" then some "g-123" else none) []).1
      "taskmaster-ai"
      ⟨"npx", ["-y", "--package=task-master-ai", "task-master-ai"],
        [("GEMINI_API_KEY", "$\x7benv:GEMINI_API_KEY\x7d"),
         ("ANTHROPIC_API_KEY", "$\x7benv:ANTHROPIC_API_KEY\x7d")], none⟩
      (by decide) "GEMINI_API_KEY" "$\x7benv:GEMINI_API_KEY\x7d" (by decide),
   by decide, by decide⟩

/-! ## C6: a run with no AI tools selected -/

theorem pathName_append_one (l : List String) (a : String) : pathName (l ++ [a]) = a := by
  simp [pathName, List.getLastD_concat]

theorem pathName_append_two (l : List String) (a b : String) :
    pathName (l ++ [a, b]) = b := by
  have h : l ++ [a, b] = (l ++ [a]) ++ [b] := by simp
  rw [h, pathName_append_one]

theorem mem_scaffold_base_one (path : List String) (a : String)
    (h : a ∈ scaffold_file_basenames) :
    pathName (path ++ [a]) ∈ scaffold_file_basenames := by
  rw [pathName_append_one]; exact h

theorem mem_scaffold_base_two (path : List String) (a b : String)
    (h : b ∈ scaffold_file_basenames) :
    pathName (path ++ [a, b]) ∈ scaffold_file_basenames := by
  rw [pathName_append_two]; exact h

theorem scaffold_python_write_names (path : List String) (inp : ComponentInputs) :
    ∀ p c, Op.writeOp p c ∈ (scaffold_python path inp).1 →
      pathName p ∈ scaffold_file_basenames := by
  intro p c hop
  by_cases hpy : inp.addPytest
  · simp [scaffold_python, hpy, write_file] at hop
    rcases hop with ⟨rfl, -⟩ | ⟨rfl, -⟩ <;>
      first
        | exact mem_scaffold_base_one path _ (by decide)
        | exact mem_scaffold_base_two path _ _ (by decide)
  · by_cases hpk : inp.pyPkgs = []
    · simp [scaffold_python, hpy, hpk, write_file] at hop
    · simp [scaffold_python, hpy, hpk, write_file] at hop
      obtain ⟨rfl, -⟩ := hop
      exact mem_scaffold_base_one path _ (by decide)

theorem scaffold_cpp_write_names (path : List String) (inp : ComponentInputs) :
    ∀ p c, Op.writeOp p c ∈ (scaffold_cpp path inp).1 →
      pathName p ∈ scaffold_file_basenames := by
  intro p c hop
  by_cases hq : inp.cppQt
  · simp [scaffold_cpp, hq, write_file] at hop
    rcases hop with ⟨rfl, -⟩ | ⟨rfl, -⟩ | ⟨rfl, -⟩ <;>
      first
        | exact mem_scaffold_base_one path _ (by decide)
        | exact mem_scaffold_base_two path _ _ (by decide)
  · by_cases hg : inp.cppGtest
    · simp [scaffold_cpp, hq, hg, write_file] at hop
      rcases hop with ⟨rfl, -⟩ | ⟨rfl, -⟩ | ⟨rfl, -⟩ <;>
        first
          | exact mem_scaffold_base_one path _ (by decide)
          | exact mem_scaffold_base_two path _ _ (by decide)
    · simp [scaffold_cpp, hq, hg, write_file] at hop
      rcases hop with ⟨rfl, -⟩ | ⟨rfl, -⟩ <;>
        first
          | exact mem_scaffold_base_one path _ (by decide)
          | exact mem_scaffold_base_two path _ _ (by decide)

theorem scaffold_rust_write_names (path : List String) (inp : ComponentInputs) (w : World) :
    ∀ p c, Op.writeOp p c ∈ (scaffold_rust path inp w).1 →
      pathName p ∈ scaffold_file_basenames := by
  intro p c hop
  by_cases hr : w.rustcOk
  · simp [scaffold_rust, hr] at hop
  · simp [scaffold_rust, hr] at hop

theorem scaffold_flutter_write_names (path : List String) (inp : ComponentInputs)
    (w : World) :
    ∀ p c, Op.writeOp p c ∈ (scaffold_flutter path inp w).1 →
      pathName p ∈ scaffold_file_basenames := by
  intro p c hop
  by_cases hf : w.flutterOk
  · simp [scaffold_flutter, hf] at hop
  · simp [scaffold_flutter, hf] at hop

theorem scaffold_dispatch_write_names (lang : String) (path : List String)
    (inp : ComponentInputs) (w : World) :
    ∀ p c, Op.writeOp p c ∈ (scaffold_dispatch lang path inp w).1 →
      pathName p ∈ scaffold_file_basenames := by
  intro p c hop
  unfold scaffold_dispatch at hop
  split_ifs at hop
  · exact scaffold_python_write_names path inp p c hop
  · exact scaffold_cpp_write_names path inp p c hop
  · exact scaffold_rust_write_names path inp w p c hop
  · exact scaffold_flutter_write_names path inp w p c hop
  · cases hop

theorem scaffold_loop_write_names (proj : List String) (ml : Bool)
    (inputs : Nat → ComponentInputs) (w : World) :
    ∀ (langs : List String) (i : Nat) (p : List String) (c : FileContent),
      Op.writeOp p c ∈ (scaffold_loop proj ml inputs w langs i).1 →
        pathName p ∈ scaffold_file_basenames := by
  intro langs
  induction langs with
  | nil => intro i p c hop; cases hop
  | cons lang rest ih =>
    intro i p c hop
    unfold scaffold_loop at hop
    simp only [List.mem_append] at hop
    rcases hop with (hop | hop) | hop
    · exact absurd hop (by split_ifs <;> simp)
    · exact scaffold_dispatch_write_names lang _ (inputs i) w p c hop
    · exact ih (i + 1) p c hop


theorem pathName_append_three (l : List String) (a b c : String) :
    pathName (l ++ [a, b, c]) = c := by
  have h : l ++ [a, b, c] = (l ++ [a, b]) ++ [c] := by simp
  rw [h, pathName_append_one]

theorem start_ops_write_names (s : Settings) :
    ∀ p c, Op.writeOp p c ∈ start_ops s → pathName p ∉ ai_file_basenames := by
  intro p c hop
  simp [start_ops, write_file] at hop
  obtain ⟨rfl, -⟩ := hop
  exact (by decide : (".gitignore" : String) ∉ ai_file_basenames)

theorem build_phase_write_names (s : Settings) (ml : Bool) (comps : List Component) :
    ∀ p c, Op.writeOp p c ∈ (build_phase s ml comps).1 → pathName p ∉ ai_file_basenames := by
  intro p c hop
  by_cases hml : ml = true
  · simp [build_phase, hml, write_file] at hop
    obtain ⟨rfl, -⟩ := hop
    exact (by decide : ("build.sh" : String) ∉ ai_file_basenames)
  · simp [build_phase, hml] at hop

theorem ide_phase_write_names (s : Settings) :
    ∀ p c, Op.writeOp p c ∈ (ide_phase s).1 → pathName p ∉ ai_file_basenames := by
  intro p c hop
  simp [ide_phase] at hop
  obtain ⟨rfl, -⟩ := hop
  exact (by decide : ("extensions.json" : String) ∉ ai_file_basenames)

theorem docker_phase_write_names (s : Settings) :
    ∀ p c, Op.writeOp p c ∈ (docker_phase s).1 → pathName p ∉ ai_file_basenames := by
  intro p c hop
  by_cases hd : s.use_docker = true
  · simp [docker_phase, hd, write_file] at hop
    obtain ⟨rfl, -⟩ := hop
    exact (by decide : ("Dockerfile" : String) ∉ ai_file_basenames)
  · simp [docker_phase, hd] at hop

theorem ci_phase_write_names (s : Settings) :
    ∀ p c, Op.writeOp p c ∈ (ci_phase s).1 → pathName p ∉ ai_file_basenames := by
  intro p c hop
  by_cases hc : s.use_ci = true
  · simp [ci_phase, hc, write_file] at hop
    obtain ⟨rfl, -⟩ := hop
    exact (by decide : ("ci.yml" : String) ∉ ai_file_basenames)
  · simp [ci_phase, hc] at hop

theorem copilot_phase_empty (s : Settings) (h : s.ai_tools = []) :
    copilot_phase s = ([], []) := by
  simp [copilot_phase, h]

theorem ai_phase_empty (s : Settings) (comps : List Component) (es : List String)
    (h : s.ai_tools = []) : ai_phase s comps es = ([], [], []) := by
  simp [ai_phase, h]

theorem github_phase_no_writes (s : Settings) (w : World) :
    ∀ p c, Op.writeOp p c ∉ (github_phase s w).1 := by
  intro p c hop
  unfold github_phase at hop
  split_ifs at hop <;> simp at hop

theorem doc_phase_write_names (s : Settings) (today : String)
    (summary next_steps : List String) :
    ∀ p c, Op.writeOp p c ∈ doc_phase s today summary next_steps →
      pathName p ∉ ai_file_basenames := by
  intro p c hop
  simp [doc_phase, write_file] at hop
  obtain ⟨rfl, -⟩ := hop
  exact (by decide : ("GETTING_STARTED.md" : String) ∉ ai_file_basenames)

/-- Part (1) of C6: with no AI tools selected, no written file has the
basename of an AI-tool configuration file — so no Gemini, Cursor, Claude
or GitHub Copilot configuration file is created. -/
theorem no_ai_files_written (s : Settings) (inputs : Nat → ComponentInputs) (w : World)
    (es : List String) (today : String) (h : s.ai_tools = []) :
    ∀ p c, Op.writeOp p c ∈ (main_run s inputs w es today false).ops →
      pathName p ∉ ai_file_basenames := by
  intro p c hop
  simp only [main_run, Bool.false_eq_true, ↓reduceIte, List.mem_append,
    copilot_phase_empty s h, ai_phase_empty s _ es h, List.not_mem_nil, or_false,
    false_or] at hop
  have hscafd : ∀ b ∈ scaffold_file_basenames, b ∉ ai_file_basenames := by decide
  rcases hop with ((((((hop | hop) | hop) | hop) | hop) | hop) | hop) | hop
  · exact start_ops_write_names s p c hop
  · exact hscafd _ (scaffold_loop_write_names _ _ inputs w s.languages 0 p c hop)
  · exact build_phase_write_names s _ _ p c hop
  · exact ide_phase_write_names s p c hop
  · exact docker_phase_write_names s p c hop
  · exact ci_phase_write_names s p c hop
  · exact absurd hop (github_phase_no_writes s w p c)
  · exact doc_phase_write_names s today _ _ p c hop

theorem summaryKey_of_head (pre rest : String) (h : 10 < pre.data.length) :
    summaryKey (pre ++ rest) = (pre.data.getD 4 ' ', pre.data.getD 10 ' ') := by
  unfold summaryKey
  rw [String.data_append, List.getD_append _ _ _ _ (by omega), List.getD_append _ _ _ _ h]

theorem scaffold_python_summary_key (path : List String) (inp : ComponentInputs) :
    ∀ e ∈ (scaffold_python path inp).2, summaryKey e = ('C', 'e') := by
  intro e he
  simp [scaffold_python] at he
  subst he
  rw [String.append_assoc, summaryKey_of_head _ _ (by decide)]
  decide

theorem scaffold_cpp_summary_key (path : List String) (inp : ComponentInputs) :
    ∀ e ∈ (scaffold_cpp path inp).2, summaryKey e = ('C', 'e') := by
  intro e he
  simp [scaffold_cpp] at he
  subst he
  rw [String.append_assoc, summaryKey_of_head _ _ (by decide)]
  decide

theorem scaffold_rust_summary_key (path : List String) (inp : ComponentInputs) (w : World) :
    ∀ e ∈ (scaffold_rust path inp w).2, summaryKey e = ('C', 'e') := by
  intro e he
  by_cases hr : w.rustcOk <;> simp [scaffold_rust, hr] at he
  subst he
  rw [String.append_assoc, summaryKey_of_head _ _ (by decide)]
  decide

theorem scaffold_flutter_summary_key (path : List String) (inp : ComponentInputs)
    (w : World) :
    ∀ e ∈ (scaffold_flutter path inp w).2, summaryKey e = ('C', 'e') := by
  intro e he
  by_cases hf : w.flutterOk <;> simp [scaffold_flutter, hf] at he
  subst he
  rw [String.append_assoc, summaryKey_of_head _ _ (by decide)]
  decide

theorem scaffold_dispatch_summary_key (lang : String) (path : List String)
    (inp : ComponentInputs) (w : World) :
    ∀ e ∈ (scaffold_dispatch lang path inp w).2, summaryKey e = ('C', 'e') := by
  intro e he
  unfold scaffold_dispatch at he
  split_ifs at he
  · exact scaffold_python_summary_key path inp e he
  · exact scaffold_cpp_summary_key path inp e he
  · exact scaffold_rust_summary_key path inp w e he
  · exact scaffold_flutter_summary_key path inp w e he
  · cases he

theorem scaffold_loop_summary_key (proj : List String) (ml : Bool)
    (inputs : Nat → ComponentInputs) (w : World) :
    ∀ (langs : List String) (i : Nat),
      ∀ e ∈ (scaffold_loop proj ml inputs w langs i).2.1, summaryKey e = ('C', 'e') := by
  intro langs
  induction langs with
  | nil => intro i e he; cases he
  | cons lang rest ih =>
    intro i e he
    unfold scaffold_loop at he
    simp only [List.mem_append] at he
    rcases he with he | he
    · exact scaffold_dispatch_summary_key lang _ (inputs i) w e he
    · exact ih (i + 1) e he

theorem ai_summary_entry_key (e : String) (h : ai_summary_entry e) :
    summaryKey e ∈ ai_summary_keys := by
  rcases h with ⟨l, rfl⟩ | rfl | rfl | rfl | rfl | rfl
  · rw [String.append_assoc, summaryKey_of_head _ _ (by decide)]
    decide
  · decide
  · decide
  · decide
  · decide
  · decide

theorem start_summary_key (s : Settings) (ml : Bool) :
    ∀ e ∈ start_summary s ml, summaryKey e ∈ allowed_summary_keys := by
  intro e he
  simp [start_summary] at he
  rcases he with rfl | rfl
  · rw [String.append_assoc, summaryKey_of_head _ _ (by decide)]
    decide
  · rw [summaryKey_of_head _ _ (by decide)]
    decide

theorem build_phase_summary_key (s : Settings) (ml : Bool) (comps : List Component) :
    ∀ e ∈ (build_phase s ml comps).2, summaryKey e ∈ allowed_summary_keys := by
  intro e he
  by_cases hml : ml = true <;> simp [build_phase, hml] at he
  subst he
  decide

theorem ide_phase_summary_key (s : Settings) :
    ∀ e ∈ (ide_phase s).2.1, summaryKey e ∈ allowed_summary_keys := by
  intro e he
  simp [ide_phase] at he
  subst he
  decide

theorem docker_phase_summary_key (s : Settings) :
    ∀ e ∈ (docker_phase s).2, summaryKey e ∈ allowed_summary_keys := by
  intro e he
  by_cases hd : s.use_docker = true <;> simp [docker_phase, hd] at he
  subst he
  decide

theorem ci_phase_summary_key (s : Settings) :
    ∀ e ∈ (ci_phase s).2, summaryKey e ∈ allowed_summary_keys := by
  intro e he
  by_cases hc : s.use_ci = true <;> simp [ci_phase, hc] at he
  subst he
  decide

theorem github_phase_summary_key (s : Settings) (w : World) :
    ∀ e ∈ (github_phase s w).2.1, summaryKey e ∈ allowed_summary_keys := by
  intro e he
  unfold github_phase at he
  split_ifs at he <;> simp at he
  · subst he
    rw [String.append_assoc, summaryKey_of_head _ _ (by decide)]
    decide
  · subst he
    rw [String.append_assoc, summaryKey_of_head _ _ (by decide)]
    decide

/-- Part (2) of C6: with no AI tools selected, no entry of the summary
log is one of the entries produced by the AI-tool phases. -/
theorem no_ai_summary_entries (s : Settings) (inputs : Nat → ComponentInputs) (w : World)
    (es : List String) (today : String) (h : s.ai_tools = []) :
    ∀ e ∈ (main_run s inputs w es today false).summary, ¬ ai_summary_entry e := by
  intro e he hai
  have hbad := ai_summary_entry_key e hai
  have hdisj : ∀ k ∈ allowed_summary_keys, k ∉ ai_summary_keys := by decide
  refine hdisj (summaryKey e) ?_ hbad
  simp only [main_run, Bool.false_eq_true, ↓reduceIte, List.mem_append,
    copilot_phase_empty s h, ai_phase_empty s _ es h, List.not_mem_nil, or_false,
    false_or] at he
  rcases he with (((((he | he) | he) | he) | he) | he) | he
  · exact start_summary_key s _ e he
  · exact (scaffold_loop_summary_key _ _ inputs w s.languages 0 e he) ▸ (by decide)
  · exact build_phase_summary_key s _ _ e he
  · exact ide_phase_summary_key s e he
  · exact docker_phase_summary_key s e he
  · exact ci_phase_summary_key s e he
  · exact github_phase_summary_key s w e he

theorem pathName_cons_cons (a b : String) (l : List String) :
    pathName (a :: b :: l) = pathName (b :: l) := rfl

theorem mem_ite_pair_nil {β : Type} {c : Prop} [Decidable c] {l : List Op} {y z : β}
    {x : Op} (h : x ∈ (if c then (l, y) else ([], z)).1) : x ∈ l := by
  split_ifs at h
  · exact h
  · cases h

theorem configure_ai_tools_write_basenames (proj : List String) (s : Settings)
    (comps : List Component) (es : List String) :
    ∀ p c, Op.writeOp p c ∈ (configure_ai_tools proj s comps es).1 →
      pathName p ∈ ai_file_basenames := by
  intro p c hop
  unfold configure_ai_tools at hop
  by_cases hes : es = []
  · rw [if_pos hes] at hop
    cases hop
  · rw [if_neg hes] at hop
    simp only [List.mem_append] at hop
    rcases hop with (hop | hop) | hop
    · have hop := mem_ite_pair_nil hop
      simp only [write_file, List.mem_cons, List.not_mem_nil, or_false] at hop
      rcases hop with hop | hop
      · obtain ⟨rfl, -⟩ := Op.writeOp.inj hop
        simp [pathName_append_two, ai_file_basenames]
      · obtain ⟨rfl, -⟩ := Op.writeOp.inj hop
        simp [pathName_append_one, ai_file_basenames]
    · have hop := mem_ite_pair_nil hop
      simp only [List.mem_cons, List.not_mem_nil, or_false] at hop
      obtain ⟨rfl, -⟩ := Op.writeOp.inj hop
      simp [pathName_append_two, ai_file_basenames]
    · have hop := mem_ite_pair_nil hop
      simp only [List.mem_cons, List.not_mem_nil, or_false] at hop
      obtain ⟨rfl, -⟩ := Op.writeOp.inj hop
      simp [pathName_append_two, ai_file_basenames]

theorem ai_phase_write_basenames (s : Settings) (comps : List Component) (es : List String) :
    ∀ p c, Op.writeOp p c ∈ (ai_phase s comps es).1 → pathName p ∈ ai_file_basenames := by
  intro p c hop
  unfold ai_phase at hop
  split_ifs at hop
  · exact configure_ai_tools_write_basenames [s.project_name] s comps es p c hop
  · cases hop

theorem copilot_phase_write_basenames (s : Settings) :
    ∀ p c, Op.writeOp p c ∈ (copilot_phase s).1 → pathName p ∈ ai_file_basenames := by
  intro p c hop
  unfold copilot_phase at hop
  split_ifs at hop <;> simp [write_file] at hop
  obtain ⟨rfl, -⟩ := hop
  exact (by decide : ("config.yml" : String) ∈ ai_file_basenames)

theorem github_phase_no_write_paths (s : Settings) (w : World) :
    (github_phase s w).1.filterMap writePathOf = [] := by
  unfold github_phase
  split_ifs <;> rfl

theorem filter_keep_of_basenames {ops : List Op}
    (h : ∀ p c, Op.writeOp p c ∈ ops → pathName p ∉ ai_file_basenames) :
    (ops.filterMap writePathOf).filter
        (fun p => decide (pathName p ∉ ai_file_basenames)) =
      ops.filterMap writePathOf := by
  rw [List.filter_eq_self]
  intro p hp
  obtain ⟨op, hop, hw⟩ := List.mem_filterMap.1 hp
  cases op with
  | writeOp q d =>
    simp only [writePathOf, Option.some.injEq] at hw
    subst hw
    simp [h q d hop]
  | mkdirOp q => simp [writePathOf] at hw
  | chmodOp q => simp [writePathOf] at hw
  | cmdOp a b => simp [writePathOf] at hw

theorem filter_drop_of_basenames {ops : List Op}
    (h : ∀ p c, Op.writeOp p c ∈ ops → pathName p ∈ ai_file_basenames) :
    (ops.filterMap writePathOf).filter
        (fun p => decide (pathName p ∉ ai_file_basenames)) = [] := by
  rw [List.filter_eq_nil_iff]
  intro p hp
  obtain ⟨op, hop, hw⟩ := List.mem_filterMap.1 hp
  cases op with
  | writeOp q d =>
    simp only [writePathOf, Option.some.injEq] at hw
    subst hw
    simp [h q d hop]
  | mkdirOp q => simp [writePathOf] at hw
  | chmodOp q => simp [writePathOf] at hw
  | cmdOp a b => simp [writePathOf] at hw

set_option maxHeartbeats 2000000 in
/-- Part (3) of C6: the artifacts other than the AI-tool configuration
files are unaffected by the AI-tool selection — filtering the AI files
out of the written paths of a run with any selection `T` yields exactly
the written paths of the run with the empty selection. -/
theorem ai_selection_path_frame (s : Settings) (inputs : Nat → ComponentInputs)
    (w : World) (es : List String) (today : String) (T : List String) :
    ((main_run { s with ai_tools := T } inputs w es today false).ops.filterMap
        writePathOf).filter (fun p => decide (pathName p ∉ ai_file_basenames)) =
      (main_run { s with ai_tools := [] } inputs w es today false).ops.filterMap
        writePathOf := by
  have hscafd : ∀ b ∈ scaffold_file_basenames, b ∉ ai_file_basenames := by decide
  simp only [main_run, Bool.false_eq_true, ↓reduceIte, List.filterMap_append,
    List.filter_append]
  rw [filter_keep_of_basenames (start_ops_write_names _),
    filter_keep_of_basenames
      (fun p c hop => hscafd _ (scaffold_loop_write_names _ _ inputs w _ 0 p c hop)),
    filter_keep_of_basenames (build_phase_write_names _ _ _),
    filter_keep_of_basenames (ide_phase_write_names _),
    filter_keep_of_basenames (docker_phase_write_names _),
    filter_keep_of_basenames (ci_phase_write_names _),
    filter_drop_of_basenames (copilot_phase_write_basenames _),
    filter_drop_of_basenames (ai_phase_write_basenames _ _ _),
    github_phase_no_write_paths,
    filter_keep_of_basenames (doc_phase_write_names _ _ _ _),
    github_phase_no_write_paths]
  rfl

/-- C6 (amended): when zero AI tools are selected, (1) no written file
is an AI-tool configuration file (Gemini, Cursor, Claude or GitHub
Copilot), (2) no AI-tool-related entry is appended to the summary log,
and (3) the *paths* of all other generated artifacts are unaffected by
the AI-tool selection: erasing the AI files from the written paths of a
run with any selection yields exactly the written paths of the
empty-selection run.  (Unaffectedness does not extend to contents: the
editor-recommendation file and the final document change with the
selection — see the content counterexample.) -/
theorem no_ai_tools_selected_spec (s : Settings) (inputs : Nat → ComponentInputs)
    (w : World) (es : List String) (today : String) (h : s.ai_tools = []) :
    (∀ p c, Op.writeOp p c ∈ (main_run s inputs w es today false).ops →
      pathName p ∉ ai_file_basenames) ∧
    (∀ e ∈ (main_run s inputs w es today false).summary, ¬ ai_summary_entry e) ∧
    (∀ T, ((main_run { s with ai_tools := T } inputs w es today false).ops.filterMap
        writePathOf).filter (fun p => decide (pathName p ∉ ai_file_basenames)) =
      (main_run { s with ai_tools := [] } inputs w es today false).ops.filterMap
        writePathOf) :=
  ⟨no_ai_files_written s inputs w es today h,
   no_ai_summary_entries s inputs w es today h,
   fun T => ai_selection_path_frame s inputs w es today T⟩

/-- Witness for C6: a concrete single-language run with no AI tools. -/
theorem no_ai_tools_selected_spec_witness :
    ¬ ai_summary_entry "* **Project:** `p`" :=
  (no_ai_tools_selected_spec
      ⟨"p", ["Python"], true, true, false, [], fun _ => none, ""⟩
      (fun _ => ⟨"sub", true, ["requests"], false, false, [], []⟩)
      ⟨true, true, false, false⟩ [] "2026-01-01" rfl).2.1
    "* **Project:** `p`" (by decide)

/-- Counterexample to C6 as stated: a *non-AI* artifact is affected by
the AI-tool selection.  Two runs identical except for the AI-tool
selection (`["Gemini"]` vs `[]`) both write `.vscode/extensions.json`,
but with different contents — `get_vscode_extensions` (lines 194–198)
adds `Google.gemini` to the recommendation list when Gemini is
selected. -/
theorem ai_selection_content_counterexample :
    Op.writeOp ["p", ".vscode", "extensions.json"]
        (.extensionsJson (get_vscode_extensions
          ⟨"p", ["Python"], false, false, false, ["Gemini"], fun _ => none, ""⟩)) ∈
      (main_run ⟨"p", ["Python"], false, false, false, ["Gemini"], fun _ => none, ""⟩
        (fun _ => ⟨"sub", false, [], false, false, [], []⟩)
        ⟨true, true, false, false⟩ [] "2026-01-01" false).ops ∧
    Op.writeOp ["p", ".vscode", "extensions.json"]
        (.extensionsJson (get_vscode_extensions
          ⟨"p", ["Python"], false, false, false, [], fun _ => none, ""⟩)) ∈
      (main_run ⟨"p", ["Python"], false, false, false, [], fun _ => none, ""⟩
        (fun _ => ⟨"sub", false, [], false, false, [], []⟩)
        ⟨true, true, false, false⟩ [] "2026-01-01" false).ops ∧
    get_vscode_extensions
        ⟨"p", ["Python"], false, false, false, ["Gemini"], fun _ => none, ""⟩ ≠
      get_vscode_extensions ⟨"p", ["Python"], false, false, false, [], fun _ => none, ""⟩ := by
  exact ⟨by decide, by decide, by decide⟩
